import Mathlib

/-!
# azqr: rule catalogs and scanners

A shallow embedding of the rule catalogs of `internal/scanners/sql/rules.go` and
`internal/scanners/cae/rules.go` and of the `Scan` methods of the AKS, Container
Instance, Container Registry, MySQL Flexible and WebPubSub scanners.

Modelling conventions

* A Go pointer `*T` is an `Option T`; `nil` is `none`.  Dereferencing `nil` is the
  run-time fault `Panic.nilDereference`.
* A Go `interface{}` target is the sum type `Target`; a failed type assertion
  `target.(*T)` is the run-time fault `Panic.typeAssertion`.
* A function that can fault returns `Except Panic _`.
* A Go `map[string]T` is an association list `GoMap T`; a map-typed struct field,
  which may hold the nil map, is an `Option (GoMap T)`.
* Go strings are modelled by Lean strings (sequences of Unicode code points), so
  only strings that are valid UTF-8 are covered.
* `strings.ToLower` of the Go standard library is taken as a parameter `ToLower`.
* Logging calls are ignored.
-/

set_option autoImplicit false

namespace Azqr

/-! ## Go run-time model -/

/-- Run-time faults of the Go program that the embedded code can raise. -/
inductive Panic where
  | nilDereference
  | typeAssertion
  deriving DecidableEq, Repr

deriving instance DecidableEq for Except

/-- Dereference of a Go pointer (also a field selection through a pointer). -/
def deref {α : Type} : Option α → Except Panic α
  | some a => Except.ok a
  | none => Except.error Panic.nilDereference

/-- Go's short-circuit `a && b`: `b` is evaluated only when `a` is true. -/
def goAnd (a b : Except Panic Bool) : Except Panic Bool :=
  match a with
  | Except.error e => Except.error e
  | Except.ok true => b
  | Except.ok false => Except.ok false

/-- Go's short-circuit `a || b`: `b` is evaluated only when `a` is false. -/
def goOr (a b : Except Panic Bool) : Except Panic Bool :=
  match a with
  | Except.error e => Except.error e
  | Except.ok true => Except.ok true
  | Except.ok false => b

/-- A (non-nil) Go `map[string]α`, as an association list. -/
abbrev GoMap (α : Type) := List (String × α)

namespace GoMap

/-- The keys of a map. -/
def keys {α : Type} (m : GoMap α) : List String := m.map Prod.fst

/-- Map read `m[key]`, with the comma-ok result folded into the option. -/
def get? {α : Type} : GoMap α → String → Option α
  | [], _ => none
  | (k, v) :: m, key => if k = key then some v else get? m key

/-- Map write `m[key] = v`: replaces the entry of an existing key, else adds one. -/
def set {α : Type} : GoMap α → String → α → GoMap α
  | [], key, v => [(key, v)]
  | (k, w) :: m, key, v => if k = key then (k, v) :: m else (k, w) :: set m key v

end GoMap

/-- The `ok` of `_, ok := m[key]` on a map that may be nil. -/
def commaOk {α : Type} (m : Option (GoMap α)) (key : String) : Bool :=
  match m with
  | none => false
  | some m => (m.get? key).isSome

/-- Go's `len(m) == 0` on a map that may be nil (`len` of the nil map is 0). -/
def lenIsZero {α : Type} (m : Option (GoMap α)) : Bool :=
  match m with
  | none => true
  | some m => m.length == 0

/-- Go's `strings.HasPrefix(s, p)`: `len(s) >= len(p) && s[:len(p)] == p`. -/
def HasPrefix (s p : String) : Bool :=
  decide (s.data.length ≥ p.data.length) && (s.data.take p.data.length == p.data)

/-- The ASCII part of `strings.ToLower`, used to run the rules on concrete input. -/
def asciiToLower (s : String) : String := String.mk (s.data.map Char.toLower)

/-! ## Azure SDK resource types (the fields the rules and scanners read; the field
`Type` is written `Type_`) -/

namespace armsql

/-- Type `armsql.ServerPrivateEndpointConnection`. -/
structure ServerPrivateEndpointConnection where
  ID : Option String
  deriving DecidableEq, Repr

/-- Type `armsql.ServerProperties`. -/
structure ServerProperties where
  PrivateEndpointConnections : List (Option ServerPrivateEndpointConnection)
  MinimalTLSVersion : Option String
  deriving DecidableEq, Repr

/-- Type `armsql.Server`. -/
structure Server where
  ID : Option String
  Name : Option String
  Tags : Option (GoMap (Option String))
  Properties : Option ServerProperties
  deriving DecidableEq, Repr

/-- Type `armsql.SKU`. -/
structure SKU where
  Name : Option String
  Tier : Option String
  deriving DecidableEq, Repr

/-- Type `armsql.DatabaseProperties`. -/
structure DatabaseProperties where
  ZoneRedundant : Option Bool
  deriving DecidableEq, Repr

/-- Type `armsql.Database`. -/
structure Database where
  ID : Option String
  Name : Option String
  Tags : Option (GoMap (Option String))
  Properties : Option DatabaseProperties
  SKU : Option SKU
  deriving DecidableEq, Repr

end armsql

namespace armappcontainers

/-- Type `armappcontainers.VnetConfiguration`. -/
structure VnetConfiguration where
  Internal : Option Bool
  deriving DecidableEq, Repr

/-- Type `armappcontainers.ManagedEnvironmentProperties`. -/
structure ManagedEnvironmentProperties where
  ZoneRedundant : Option Bool
  VnetConfiguration : Option VnetConfiguration
  deriving DecidableEq, Repr

/-- Type `armappcontainers.ManagedEnvironment`. -/
structure ManagedEnvironment where
  ID : Option String
  Name : Option String
  Tags : Option (GoMap (Option String))
  Properties : Option ManagedEnvironmentProperties
  deriving DecidableEq, Repr

end armappcontainers

namespace armcontainerservice

/-- Type `armcontainerservice.ManagedCluster`. -/
structure ManagedCluster where
  Name : Option String
  Type_ : Option String
  Location : Option String
  deriving DecidableEq, Repr

end armcontainerservice

namespace armcontainerinstance

/-- Type `armcontainerinstance.ContainerGroup`. -/
structure ContainerGroup where
  Name : Option String
  Type_ : Option String
  Location : Option String
  deriving DecidableEq, Repr

end armcontainerinstance

namespace armcontainerregistry

/-- Type `armcontainerregistry.Registry`. -/
structure Registry where
  Name : Option String
  Type_ : Option String
  Location : Option String
  deriving DecidableEq, Repr

end armcontainerregistry

namespace armmysqlflexibleservers

/-- Type `armmysqlflexibleservers.Server`. -/
structure Server where
  Name : Option String
  Type_ : Option String
  Location : Option String
  deriving DecidableEq, Repr

end armmysqlflexibleservers

namespace armwebpubsub

/-- Type `armwebpubsub.ResourceInfo`. -/
structure ResourceInfo where
  Name : Option String
  Type_ : Option String
  Location : Option String
  deriving DecidableEq, Repr

end armwebpubsub

/-- The dynamic value of an `interface{}` rule target: a pointer (possibly nil) to
one of the resource types, or a value of any other dynamic type. -/
inductive Target where
  | sqlServer (p : Option armsql.Server)
  | sqlDatabase (p : Option armsql.Database)
  | managedEnvironment (p : Option armappcontainers.ManagedEnvironment)
  | managedCluster (p : Option armcontainerservice.ManagedCluster)
  | containerGroup (p : Option armcontainerinstance.ContainerGroup)
  | registry (p : Option armcontainerregistry.Registry)
  | mysqlFlexibleServer (p : Option armmysqlflexibleservers.Server)
  | webPubSub (p : Option armwebpubsub.ResourceInfo)
  | other
  deriving DecidableEq, Repr

namespace Target

/-- Type assertion `target.(*armsql.Server)`. -/
def assertServer : Target → Except Panic (Option armsql.Server)
  | sqlServer p => Except.ok p
  | _ => Except.error Panic.typeAssertion

/-- Type assertion `target.(*armsql.Database)`. -/
def assertDatabase : Target → Except Panic (Option armsql.Database)
  | sqlDatabase p => Except.ok p
  | _ => Except.error Panic.typeAssertion

/-- Type assertion `target.(*armappcontainers.ManagedEnvironment)`. -/
def assertManagedEnvironment :
    Target → Except Panic (Option armappcontainers.ManagedEnvironment)
  | managedEnvironment p => Except.ok p
  | _ => Except.error Panic.typeAssertion

end Target

/-! ## Package `scanners`: rule model -/

namespace scanners

/-- Modelled from the spec: the `RulesCategory` constants of package `scanners`
(the declaration is not part of the sources at hand). -/
inductive RulesCategory where
  | RulesCategoryReliability
  | RulesCategorySecurity
  | RulesCategoryOperationalExcellence
  | RulesCategoryCost
  | RulesCategoryPerformance
  deriving DecidableEq, Repr

/-- Modelled from the spec: the `RulesSubcategory` constants of package `scanners`
(the declaration is not part of the sources at hand). -/
inductive RulesSubcategory where
  | RulesSubcategoryReliabilityDiagnosticLogs
  | RulesSubcategoryReliabilityAvailabilityZones
  | RulesSubcategoryReliabilitySLA
  | RulesSubcategoryReliabilitySKU
  | RulesSubcategorySecurityPrivateEndpoint
  | RulesSubcategorySecurityTLS
  | RulesSubcategoryOperationalExcellenceCAF
  | RulesSubcategoryOperationalExcellenceTags
  deriving DecidableEq, Repr

/-- Modelled from the spec: the severity constants of package `scanners`
(the declaration is not part of the sources at hand). -/
inductive Severity where
  | SeverityHigh
  | SeverityMedium
  | SeverityLow
  deriving DecidableEq, Repr

/-- Modelled from the spec: the report-field tags of package `scanners`
(the declaration is not part of the sources at hand). -/
inductive OverviewField where
  | OverviewFieldDiagnostics
  | OverviewFieldAZ
  | OverviewFieldSLA
  | OverviewFieldPrivate
  | OverviewFieldSKU
  | OverviewFieldCAF
  deriving DecidableEq, Repr

/-- Modelled from the spec: type `scanners.ScanContext`, of which the rules read the
map `DiagnosticsSettings` (the declaration is not part of the sources at hand). -/
structure ScanContext where
  DiagnosticsSettings : Option (GoMap Bool)
  deriving DecidableEq, Repr

/-- The pair `(broken, detail)` returned by a rule predicate. -/
abbrev Outcome := Bool × String

/-- Modelled from the spec: type `scanners.AzureRule` (the declaration is not part of
the sources at hand).  A field left out of a composite literal has its zero value:
`""` for `Url`, `none` for the optional report field `Field`. -/
structure AzureRule where
  Id : String
  Category : RulesCategory
  Subcategory : RulesSubcategory
  Description : String
  Severity : Severity
  Url : String := ""
  Field : Option OverviewField := none
  Eval : Target → Option ScanContext → Except Panic Outcome

/-- Modelled from the spec: type `scanners.ScannerConfig`, of which `Scan` reads the
subscription identifier (the declaration is not part of the sources at hand). -/
structure ScannerConfig where
  SubscriptionID : String
  deriving DecidableEq, Repr

/-- Modelled from the spec: type `scanners.AzureServiceResult`, the finding record:
the identity of the scanned resource and the mapping from rule id to outcome (the
declaration is not part of the sources at hand). -/
structure AzureServiceResult where
  SubscriptionID : String
  ResourceGroup : String
  ServiceName : String
  Type_ : String
  Location : String
  Rules : GoMap Outcome
  deriving DecidableEq, Repr

/-- The type of `RuleEngine.EvaluateRules`, a function that `Scan` is given. -/
abbrev EvaluateRulesFn := GoMap AzureRule → Target → Option ScanContext → GoMap Outcome

end scanners

open scanners

/-- A Go `error` value. -/
structure GoError where
  msg : String
  deriving DecidableEq, Repr

/-- The pair `(resources, err)` returned by a listing method. -/
abbrev Listing (R : Type) := List (Option R) × Option GoError

/-- The pair `(results, err)` returned by `Scan`. -/
abbrev ScanResult := List AzureServiceResult × Option GoError

/-! ## `internal/scanners/sql/rules.go` -/

namespace SQLScanner

/-- The server rules of `(a *SQLScanner) getServerRules`, in the order of the map
literal (whose keys are pairwise different constants). -/
def getServerRules (ToLower : String → String) : GoMap AzureRule :=
  [ ("sql-001",
      { Id := "sql-001"
        Category := .RulesCategoryReliability
        Subcategory := .RulesSubcategoryReliabilityDiagnosticLogs
        Description := "SQL should have diagnostic settings enabled"
        Severity := .SeverityMedium
        Eval := fun target scanContext => do
          let service ← target.assertServer
          let ctx ← deref scanContext
          let s ← deref service
          let id ← deref s.ID
          let ok := commaOk ctx.DiagnosticsSettings (ToLower id)
          pure (!ok, "")
        Field := some .OverviewFieldDiagnostics }),
    ("sql-004",
      { Id := "sql-004"
        Category := .RulesCategorySecurity
        Subcategory := .RulesSubcategorySecurityPrivateEndpoint
        Description := "SQL should have private endpoints enabled"
        Severity := .SeverityHigh
        Eval := fun target _scanContext => do
          let i ← target.assertServer
          let s ← deref i
          let props ← deref s.Properties
          let pe := decide (props.PrivateEndpointConnections.length > 0)
          pure (!pe, "")
        Field := some .OverviewFieldPrivate }),
    ("sql-006",
      { Id := "sql-006"
        Category := .RulesCategoryOperationalExcellence
        Subcategory := .RulesSubcategoryOperationalExcellenceCAF
        Description := "SQL Name should comply with naming conventions"
        Severity := .SeverityLow
        Eval := fun target _scanContext => do
          let c ← target.assertServer
          let s ← deref c
          let name ← deref s.Name
          let caf := HasPrefix name "sql"
          pure (!caf, "")
        Url := "https://learn.microsoft.com/en-us/azure/cloud-adoption-framework/ready/azure-best-practices/resource-abbreviations"
        Field := some .OverviewFieldCAF }),
    ("sql-007",
      { Id := "sql-007"
        Category := .RulesCategoryOperationalExcellence
        Subcategory := .RulesSubcategoryOperationalExcellenceTags
        Description := "SQL should have tags"
        Severity := .SeverityLow
        Eval := fun target _scanContext => do
          let c ← target.assertServer
          let s ← deref c
          pure (lenIsZero s.Tags, "")
        Url := "https://learn.microsoft.com/en-us/azure/azure-resource-manager/management/tag-resources?tabs=json" }),
    ("sql-008",
      { Id := "sql-008"
        Category := .RulesCategorySecurity
        Subcategory := .RulesSubcategorySecurityTLS
        Description := "SQL should enforce TLS >= 1.2"
        Severity := .SeverityLow
        Eval := fun target _scanContext => do
          let c ← target.assertServer
          let s ← deref c
          let broken ← goOr
            (do let props ← deref s.Properties
                pure props.MinimalTLSVersion.isNone)
            (do let props ← deref s.Properties
                let v ← deref props.MinimalTLSVersion
                pure (v != "1.2"))
          pure (broken, "")
        Url := "https://learn.microsoft.com/en-us/azure/azure-sql/database/connectivity-settings?view=azuresql&tabs=azure-portal#minimal-tls-version" }) ]

/-- The database rules of `(a *SQLScanner) getDatabaseRules`, in the order of the map
literal (whose keys are pairwise different constants). -/
def getDatabaseRules (ToLower : String → String) : GoMap AzureRule :=
  [ ("sqldb-001",
      { Id := "sqldb-001"
        Category := .RulesCategoryReliability
        Subcategory := .RulesSubcategoryReliabilityDiagnosticLogs
        Description := "SQL Database should have diagnostic settings enabled"
        Severity := .SeverityMedium
        Eval := fun target scanContext => do
          let service ← target.assertDatabase
          let ctx ← deref scanContext
          let d ← deref service
          let id ← deref d.ID
          let ok := commaOk ctx.DiagnosticsSettings (ToLower id)
          pure (!ok, "")
        Field := some .OverviewFieldDiagnostics }),
    ("sqldb-002",
      { Id := "sqldb-002"
        Category := .RulesCategoryReliability
        Subcategory := .RulesSubcategoryReliabilityAvailabilityZones
        Description := "SQL Database should have availability zones enabled"
        Severity := .SeverityHigh
        Eval := fun target _scanContext => do
          let i ← target.assertDatabase
          let d ← deref i
          let props ← deref d.Properties
          let zones := match props.ZoneRedundant with
            | some z => z
            | none => false
          pure (!zones, "")
        Field := some .OverviewFieldAZ }),
    ("sqldb-003",
      { Id := "sqldb-003"
        Category := .RulesCategoryReliability
        Subcategory := .RulesSubcategoryReliabilitySLA
        Description := "SQL Database should have a SLA"
        Severity := .SeverityHigh
        Eval := fun target _scanContext => do
          let i ← target.assertDatabase
          let d ← deref i
          let cond ← goAnd
            (goAnd
              (do let props ← deref d.Properties
                  pure props.ZoneRedundant.isSome)
              (do let props ← deref d.Properties
                  deref props.ZoneRedundant))
            (do let sku ← deref d.SKU
                let tier ← deref sku.Tier
                pure (tier == "Premium"))
          let sla := if cond then "99.995%" else "99.99%"
          pure (false, sla)
        Field := some .OverviewFieldSLA }),
    ("sqldb-005",
      { Id := "sqldb-005"
        Category := .RulesCategoryReliability
        Subcategory := .RulesSubcategoryReliabilitySKU
        Description := "SQL Database SKU"
        Severity := .SeverityHigh
        Eval := fun target _scanContext => do
          let i ← target.assertDatabase
          let d ← deref i
          let sku ← deref d.SKU
          let name ← deref sku.Name
          pure (false, name)
        Url := "https://docs.microsoft.com/en-us/azure/azure-sql/database/service-tiers-vcore?tabs=azure-portal"
        Field := some .OverviewFieldSKU }),
    ("sqldb-006",
      { Id := "sqldb-006"
        Category := .RulesCategoryOperationalExcellence
        Subcategory := .RulesSubcategoryOperationalExcellenceCAF
        Description := "SQL Database Name should comply with naming conventions"
        Severity := .SeverityLow
        Eval := fun target _scanContext => do
          let c ← target.assertDatabase
          let d ← deref c
          let name ← deref d.Name
          let caf := HasPrefix name "sqldb"
          pure (!caf, "")
        Url := "https://learn.microsoft.com/en-us/azure/cloud-adoption-framework/ready/azure-best-practices/resource-abbreviations"
        Field := some .OverviewFieldCAF }),
    ("sqldb-007",
      { Id := "sqldb-007"
        Category := .RulesCategoryOperationalExcellence
        Subcategory := .RulesSubcategoryOperationalExcellenceTags
        Description := "SQL Database should have tags"
        Severity := .SeverityLow
        Eval := fun target _scanContext => do
          let c ← target.assertDatabase
          let d ← deref c
          pure (lenIsZero d.Tags, "")
        Url := "https://learn.microsoft.com/en-us/azure/azure-resource-manager/management/tag-resources?tabs=json" }) ]

/-- The loop `for k, v := range src { result[k] = v }`, over the entries of `src`. -/
def mergeInto (result src : GoMap AzureRule) : GoMap AzureRule :=
  src.foldl (fun acc kv => acc.set kv.1 kv.2) result

/-- Method `(a *SQLScanner) GetRules`: the server rules, into which every database
rule is written under its key. -/
def GetRules (ToLower : String → String) : GoMap AzureRule :=
  mergeInto (getServerRules ToLower) (getDatabaseRules ToLower)

end SQLScanner

/-! ## `internal/scanners/cae/rules.go` -/

namespace ContainerAppsScanner

/-- Method `(a *ContainerAppsScanner) GetRules`, in the order of the map literal
(whose keys are pairwise different constants). -/
def GetRules (ToLower : String → String) : GoMap AzureRule :=
  [ ("cae-001",
      { Id := "cae-001"
        Category := .RulesCategoryReliability
        Subcategory := .RulesSubcategoryReliabilityDiagnosticLogs
        Description := "ContainerApp should have diagnostic settings enabled"
        Severity := .SeverityMedium
        Eval := fun target scanContext => do
          let service ← target.assertManagedEnvironment
          let ctx ← deref scanContext
          let e ← deref service
          let id ← deref e.ID
          let ok := commaOk ctx.DiagnosticsSettings (ToLower id)
          pure (!ok, "")
        Url := "https://learn.microsoft.com/en-us/azure/container-apps/log-options#diagnostic-settings"
        Field := some .OverviewFieldDiagnostics }),
    ("cae-002",
      { Id := "cae-002"
        Category := .RulesCategoryReliability
        Subcategory := .RulesSubcategoryReliabilityAvailabilityZones
        Description := "ContainerApp should have availability zones enabled"
        Severity := .SeverityHigh
        Eval := fun target _scanContext => do
          let app ← target.assertManagedEnvironment
          let e ← deref app
          let props ← deref e.Properties
          let zones ← deref props.ZoneRedundant
          pure (!zones, "")
        Url := "https://learn.microsoft.com/en-us/azure/container-apps/disaster-recovery?tabs=bash#set-up-zone-redundancy-in-your-container-apps-environment"
        Field := some .OverviewFieldAZ }),
    ("cae-003",
      { Id := "cae-003"
        Category := .RulesCategoryReliability
        Subcategory := .RulesSubcategoryReliabilitySLA
        Description := "ContainerApp should have a SLA"
        Severity := .SeverityHigh
        Eval := fun _target _scanContext => pure (false, "99.95%")
        Url := "https://azure.microsoft.com/en-us/support/legal/sla/container-apps/v1_0/"
        Field := some .OverviewFieldSLA }),
    ("cae-004",
      { Id := "cae-004"
        Category := .RulesCategorySecurity
        Subcategory := .RulesSubcategorySecurityPrivateEndpoint
        Description := "ContainerApp should have private endpoints enabled"
        Severity := .SeverityHigh
        Eval := fun target _scanContext => do
          let app ← target.assertManagedEnvironment
          let e ← deref app
          let pe ← goAnd
            (do let props ← deref e.Properties
                pure props.VnetConfiguration.isSome)
            (do let props ← deref e.Properties
                let vnet ← deref props.VnetConfiguration
                deref vnet.Internal)
          pure (!pe, "")
        Url := "https://learn.microsoft.com/en-us/azure/container-apps/vnet-custom-internal?tabs=bash&pivots=azure-portal"
        Field := some .OverviewFieldPrivate }),
    ("cae-006",
      { Id := "cae-006"
        Category := .RulesCategoryOperationalExcellence
        Subcategory := .RulesSubcategoryOperationalExcellenceCAF
        Description := "ContainerApp Name should comply with naming conventions"
        Severity := .SeverityLow
        Eval := fun target _scanContext => do
          let c ← target.assertManagedEnvironment
          let e ← deref c
          let name ← deref e.Name
          let caf := HasPrefix name "cae"
          pure (!caf, "")
        Url := "https://learn.microsoft.com/en-us/azure/cloud-adoption-framework/ready/azure-best-practices/resource-abbreviations"
        Field := some .OverviewFieldCAF }),
    ("cae-007",
      { Id := "cae-007"
        Category := .RulesCategoryOperationalExcellence
        Subcategory := .RulesSubcategoryOperationalExcellenceTags
        Description := "ContainerApp should have tags"
        Severity := .SeverityLow
        Eval := fun target _scanContext => do
          let c ← target.assertManagedEnvironment
          let e ← deref c
          pure (lenIsZero e.Tags, "")
        Url := "https://learn.microsoft.com/en-us/azure/azure-resource-manager/management/tag-resources?tabs=json" }) ]

end ContainerAppsScanner

/-- Evaluation of the rule stored under `id` in a catalog, `rules[id].Eval(target,
scanContext)`; `none` when the catalog has no such key. -/
def evalRule (rules : GoMap AzureRule) (id : String) (target : Target)
    (scanContext : Option ScanContext) : Option (Except Panic Outcome) :=
  (rules.get? id).map (fun r => r.Eval target scanContext)

/-! ## The scanners' `Scan` methods

The listing method of each scanner (a pager loop over the Azure client),
`RuleEngine.EvaluateRules` and the scanner's `GetRules` are given functions.  A
composite literal evaluates its fields in the order in which they are written. -/

/-- Type `AKSScanner`; its Azure client is part of the listing function. -/
structure AKSScanner where
  config : Option ScannerConfig

/-- Method `(a *AKSScanner) Scan` of `internal/scanners/aks/aks.go`. -/
def AKSScanner.Scan (a : AKSScanner)
    (listClusters : String → Listing armcontainerservice.ManagedCluster)
    (EvaluateRules : EvaluateRulesFn) (GetRules : GoMap AzureRule)
    (resourceGroupName : String) (scanContext : Option ScanContext) :
    Except Panic ScanResult :=
  match listClusters resourceGroupName with
  | (_, some err) => pure ([], some err)
  | (clusters, none) => do
    let rules := GetRules
    let results ← clusters.foldlM (fun results c => do
      let rr := EvaluateRules rules (Target.managedCluster c) scanContext
      let cfg ← deref a.config
      let cv ← deref c
      let location ← deref cv.Location
      let type ← deref cv.Type_
      let name ← deref cv.Name
      pure (results ++ [{ SubscriptionID := cfg.SubscriptionID
                          ResourceGroup := resourceGroupName
                          Location := location
                          Type_ := type
                          ServiceName := name
                          Rules := rr }])) []
    pure (results, none)

/-- Type `ContainerInstanceScanner`; its Azure client is part of the listing function. -/
structure ContainerInstanceScanner where
  config : Option ScannerConfig

/-- Method `(c *ContainerInstanceScanner) Scan` of `internal/scanners/ci/ci.go`. -/
def ContainerInstanceScanner.Scan (c : ContainerInstanceScanner)
    (listInstances : String → Listing armcontainerinstance.ContainerGroup)
    (EvaluateRules : EvaluateRulesFn) (GetRules : GoMap AzureRule)
    (resourceGroupName : String) (scanContext : Option ScanContext) :
    Except Panic ScanResult :=
  match listInstances resourceGroupName with
  | (_, some err) => pure ([], some err)
  | (instances, none) => do
    let rules := GetRules
    let results ← instances.foldlM (fun results inst => do
      let rr := EvaluateRules rules (Target.containerGroup inst) scanContext
      let cfg ← deref c.config
      let iv ← deref inst
      let name ← deref iv.Name
      let type ← deref iv.Type_
      let location ← deref iv.Location
      pure (results ++ [{ SubscriptionID := cfg.SubscriptionID
                          ResourceGroup := resourceGroupName
                          ServiceName := name
                          Type_ := type
                          Location := location
                          Rules := rr }])) []
    pure (results, none)

/-- Type `ContainerRegistryScanner`; its Azure client is part of the listing function. -/
structure ContainerRegistryScanner where
  config : Option ScannerConfig

/-- Method `(c *ContainerRegistryScanner) Scan` of `internal/scanners/cr/cr.go`. -/
def ContainerRegistryScanner.Scan (c : ContainerRegistryScanner)
    (listRegistries : String → Listing armcontainerregistry.Registry)
    (EvaluateRules : EvaluateRulesFn) (GetRules : GoMap AzureRule)
    (resourceGroupName : String) (scanContext : Option ScanContext) :
    Except Panic ScanResult :=
  match listRegistries resourceGroupName with
  | (_, some err) => pure ([], some err)
  | (regsitries, none) => do
    let rules := GetRules
    let results ← regsitries.foldlM (fun results registry => do
      let rr := EvaluateRules rules (Target.registry registry) scanContext
      let cfg ← deref c.config
      let rv ← deref registry
      let name ← deref rv.Name
      let type ← deref rv.Type_
      let location ← deref rv.Location
      pure (results ++ [{ SubscriptionID := cfg.SubscriptionID
                          ResourceGroup := resourceGroupName
                          ServiceName := name
                          Type_ := type
                          Location := location
                          Rules := rr }])) []
    pure (results, none)

/-- Type `MySQLFlexibleScanner`; its Azure client is part of the listing function. -/
structure MySQLFlexibleScanner where
  config : Option ScannerConfig

/-- Method `(c *MySQLFlexibleScanner) Scan` of `internal/scanners/mysql/mysqlf.go`. -/
def MySQLFlexibleScanner.Scan (c : MySQLFlexibleScanner)
    (listFlexiblePostgre : String → Listing armmysqlflexibleservers.Server)
    (EvaluateRules : EvaluateRulesFn) (GetRules : GoMap AzureRule)
    (resourceGroupName : String) (scanContext : Option ScanContext) :
    Except Panic ScanResult :=
  match listFlexiblePostgre resourceGroupName with
  | (_, some err) => pure ([], some err)
  | (flexibles, none) => do
    let rules := GetRules
    let results ← flexibles.foldlM (fun results postgre => do
      let rr := EvaluateRules rules (Target.mysqlFlexibleServer postgre) scanContext
      let cfg ← deref c.config
      let pv ← deref postgre
      let name ← deref pv.Name
      let type ← deref pv.Type_
      let location ← deref pv.Location
      pure (results ++ [{ SubscriptionID := cfg.SubscriptionID
                          ResourceGroup := resourceGroupName
                          ServiceName := name
                          Type_ := type
                          Location := location
                          Rules := rr }])) []
    pure (results, none)

/-- Type `WebPubSubScanner`; its Azure client is part of the listing function. -/
structure WebPubSubScanner where
  config : Option ScannerConfig

/-- Method `(c *WebPubSubScanner) Scan` of `internal/scanners/wps/wps.go`. -/
def WebPubSubScanner.Scan (c : WebPubSubScanner)
    (listWebPubSub : String → Listing armwebpubsub.ResourceInfo)
    (EvaluateRules : EvaluateRulesFn) (GetRules : GoMap AzureRule)
    (resourceGroupName : String) (scanContext : Option ScanContext) :
    Except Panic ScanResult :=
  match listWebPubSub resourceGroupName with
  | (_, some err) => pure ([], some err)
  | (WebPubSub, none) => do
    let rules := GetRules
    let results ← WebPubSub.foldlM (fun results w => do
      let rr := EvaluateRules rules (Target.webPubSub w) scanContext
      let cfg ← deref c.config
      let wv ← deref w
      let name ← deref wv.Name
      let type ← deref wv.Type_
      let location ← deref wv.Location
      pure (results ++ [{ SubscriptionID := cfg.SubscriptionID
                          ResourceGroup := resourceGroupName
                          ServiceName := name
                          Type_ := type
                          Location := location
                          Rules := rr }])) []
    pure (results, none)

/-- The relation between a listing `rs` and the findings `results` of a scan: as many
findings as resources, in listing order, the i-th finding carrying the subscription
id and resource group of the call, the name, type and location of the i-th resource
and the rule outcomes computed for it; and no finding for an empty listing. -/
def FindingsFor {R : Type} (subscriptionID resourceGroup : String)
    (name type location : R → Option String) (rules : R → GoMap Outcome)
    (rs : List R) (results : List AzureServiceResult) : Prop :=
  results.length = rs.length ∧
  (∀ (i : Nat) (r : R), rs[i]? = some r → ∃ f : AzureServiceResult, results[i]? = some f ∧
    f.SubscriptionID = subscriptionID ∧ f.ResourceGroup = resourceGroup ∧
    some f.ServiceName = name r ∧ some f.Type_ = type r ∧ some f.Location = location r ∧
    f.Rules = rules r) ∧
  (rs = [] → results = [])

/-- The key set of a map-typed field that may hold the nil map. -/
def keysOf {α : Type} (m : Option (GoMap α)) : List String :=
  match m with
  | none => []
  | some m => m.keys

/-! ## Lemmas on the run-time model -/

theorem GoMap.get?_isSome_iff {α : Type} (m : GoMap α) (key : String) :
    (m.get? key).isSome = true ↔ key ∈ m.keys := by
  induction m with
  | nil => simp [GoMap.get?, GoMap.keys]
  | cons e m ih =>
    obtain ⟨k, v⟩ := e
    by_cases h : k = key
    · simp [GoMap.get?, GoMap.keys, h]
    · have h2 : ¬ key = k := fun c => h c.symm
      simpa [GoMap.get?, GoMap.keys, h, h2] using ih

theorem commaOk_iff {α : Type} (m : Option (GoMap α)) (key : String) :
    commaOk m key = true ↔ key ∈ keysOf m := by
  cases m with
  | none => simp [commaOk, keysOf]
  | some m => simpa [commaOk, keysOf] using GoMap.get?_isSome_iff m key

theorem not_commaOk_iff {α : Type} (m : Option (GoMap α)) (key : String) :
    (!commaOk m key) = true ↔ key ∉ keysOf m := by
  rw [← commaOk_iff]; cases commaOk m key <;> simp

/-! ## Diagnostic-settings rules -/

/-- C1: for every resource whose ID is present and every scan context, each of the
rules sql-001, sqldb-001 and cae-001 returns an outcome whose broken flag is true
if and only if the lower-cased ID is not a key of `DiagnosticsSettings`, and whose
detail is empty.  When `ToLower "X" = "x"`, a resource with ID "X" is not broken
for `DiagnosticsSettings = {"x"}` and is broken for an empty (or nil) map. -/
theorem C1_diagnostic_settings_rules (ToLower : String → String) :
    (∀ (s : armsql.Server) (id : String) (ctx : ScanContext), s.ID = some id →
      ∃ broken, evalRule (SQLScanner.getServerRules ToLower) "sql-001"
          (Target.sqlServer (some s)) (some ctx) = some (Except.ok (broken, ""))
        ∧ (broken = true ↔ ToLower id ∉ keysOf ctx.DiagnosticsSettings)) ∧
    (∀ (d : armsql.Database) (id : String) (ctx : ScanContext), d.ID = some id →
      ∃ broken, evalRule (SQLScanner.getDatabaseRules ToLower) "sqldb-001"
          (Target.sqlDatabase (some d)) (some ctx) = some (Except.ok (broken, ""))
        ∧ (broken = true ↔ ToLower id ∉ keysOf ctx.DiagnosticsSettings)) ∧
    (∀ (e : armappcontainers.ManagedEnvironment) (id : String) (ctx : ScanContext),
      e.ID = some id →
      ∃ broken, evalRule (ContainerAppsScanner.GetRules ToLower) "cae-001"
          (Target.managedEnvironment (some e)) (some ctx) = some (Except.ok (broken, ""))
        ∧ (broken = true ↔ ToLower id ∉ keysOf ctx.DiagnosticsSettings)) ∧
    (ToLower "X" = "x" →
      ∀ (s : armsql.Server) (d : armsql.Database)
        (e : armappcontainers.ManagedEnvironment) (b : Bool),
        s.ID = some "X" → d.ID = some "X" → e.ID = some "X" →
        (evalRule (SQLScanner.getServerRules ToLower) "sql-001"
            (Target.sqlServer (some s)) (some ⟨some [("x", b)]⟩)
            = some (Except.ok (false, "")) ∧
         evalRule (SQLScanner.getDatabaseRules ToLower) "sqldb-001"
            (Target.sqlDatabase (some d)) (some ⟨some [("x", b)]⟩)
            = some (Except.ok (false, "")) ∧
         evalRule (ContainerAppsScanner.GetRules ToLower) "cae-001"
            (Target.managedEnvironment (some e)) (some ⟨some [("x", b)]⟩)
            = some (Except.ok (false, ""))) ∧
        (∀ m, m = none ∨ m = some [] →
         evalRule (SQLScanner.getServerRules ToLower) "sql-001"
            (Target.sqlServer (some s)) (some ⟨m⟩)
            = some (Except.ok (true, "")) ∧
         evalRule (SQLScanner.getDatabaseRules ToLower) "sqldb-001"
            (Target.sqlDatabase (some d)) (some ⟨m⟩)
            = some (Except.ok (true, "")) ∧
         evalRule (ContainerAppsScanner.GetRules ToLower) "cae-001"
            (Target.managedEnvironment (some e)) (some ⟨m⟩)
            = some (Except.ok (true, "")))) := by
  refine ⟨?_, ?_, ?_, ?_⟩
  · intro s id ctx h
    refine ⟨!commaOk ctx.DiagnosticsSettings (ToLower id), ?_, not_commaOk_iff _ _⟩
    simp [evalRule, SQLScanner.getServerRules, GoMap.get?, Target.assertServer, deref, h,
      bind, Except.bind, pure, Except.pure]
  · intro d id ctx h
    refine ⟨!commaOk ctx.DiagnosticsSettings (ToLower id), ?_, not_commaOk_iff _ _⟩
    simp [evalRule, SQLScanner.getDatabaseRules, GoMap.get?, Target.assertDatabase, deref, h,
      bind, Except.bind, pure, Except.pure]
  · intro e id ctx h
    refine ⟨!commaOk ctx.DiagnosticsSettings (ToLower id), ?_, not_commaOk_iff _ _⟩
    simp [evalRule, ContainerAppsScanner.GetRules, GoMap.get?,
      Target.assertManagedEnvironment, deref, h, bind, Except.bind, pure, Except.pure]
  · intro hx s d e b hs hd he
    refine ⟨?_, ?_⟩
    · simp [evalRule, SQLScanner.getServerRules, SQLScanner.getDatabaseRules,
        ContainerAppsScanner.GetRules, GoMap.get?, Target.assertServer,
        Target.assertDatabase, Target.assertManagedEnvironment, deref, hs, hd, he, hx,
        commaOk, bind, Except.bind, pure, Except.pure]
    · intro m hm
      rcases hm with rfl | rfl <;>
      simp [evalRule, SQLScanner.getServerRules, SQLScanner.getDatabaseRules,
        ContainerAppsScanner.GetRules, GoMap.get?, Target.assertServer,
        Target.assertDatabase, Target.assertManagedEnvironment, deref, hs, hd, he,
        commaOk, bind, Except.bind, pure, Except.pure]

/-- Witness of C1 with the ASCII lower-casing: the diagnostic-settings rules on
resources with ID "X", for the maps `{"x"}`, `{}` and the nil map. -/
theorem C1_diagnostic_settings_rules_witness :
    asciiToLower "X" = "x" ∧
    (evalRule (SQLScanner.getServerRules asciiToLower) "sql-001"
        (Target.sqlServer (some ⟨some "X", none, none, none⟩))
        (some ⟨some [("x", true)]⟩) = some (Except.ok (false, "")) ∧
     evalRule (SQLScanner.getDatabaseRules asciiToLower) "sqldb-001"
        (Target.sqlDatabase (some ⟨some "X", none, none, none, none⟩))
        (some ⟨some [("x", true)]⟩) = some (Except.ok (false, "")) ∧
     evalRule (ContainerAppsScanner.GetRules asciiToLower) "cae-001"
        (Target.managedEnvironment (some ⟨some "X", none, none, none⟩))
        (some ⟨some [("x", true)]⟩) = some (Except.ok (false, ""))) ∧
    (evalRule (SQLScanner.getServerRules asciiToLower) "sql-001"
        (Target.sqlServer (some ⟨some "X", none, none, none⟩))
        (some ⟨some []⟩) = some (Except.ok (true, "")) ∧
     evalRule (SQLScanner.getDatabaseRules asciiToLower) "sqldb-001"
        (Target.sqlDatabase (some ⟨some "X", none, none, none, none⟩))
        (some ⟨some []⟩) = some (Except.ok (true, "")) ∧
     evalRule (ContainerAppsScanner.GetRules asciiToLower) "cae-001"
        (Target.managedEnvironment (some ⟨some "X", none, none, none⟩))
        (some ⟨some []⟩) = some (Except.ok (true, ""))) ∧
    (∃ broken, evalRule (SQLScanner.getServerRules asciiToLower) "sql-001"
        (Target.sqlServer (some ⟨some "X", none, none, none⟩))
        (some ⟨none⟩) = some (Except.ok (broken, ""))
      ∧ (broken = true ↔ asciiToLower "X" ∉ keysOf (none : Option (GoMap Bool)))) :=
  have hx : asciiToLower "X" = "x" := by decide
  have h := (C1_diagnostic_settings_rules asciiToLower).2.2.2 hx
    ⟨some "X", none, none, none⟩ ⟨some "X", none, none, none, none⟩
    ⟨some "X", none, none, none⟩ true rfl rfl rfl
  ⟨hx, h.1, h.2 (some []) (Or.inr rfl),
    (C1_diagnostic_settings_rules asciiToLower).1 ⟨some "X", none, none, none⟩ "X" ⟨none⟩ rfl⟩

/-! ## Zone-redundancy rules -/

/-- C2: for every SQL database whose Properties are present, rule sqldb-002 is broken
when ZoneRedundant is explicitly false, not broken when it is true, and broken when
the field is nil; the detail is empty in all three cases. -/
theorem C2_sqldb002_zone_redundancy (ToLower : String → String) (d : armsql.Database)
    (props : armsql.DatabaseProperties) (scanContext : Option ScanContext)
    (hp : d.Properties = some props) :
    (props.ZoneRedundant = some false →
      evalRule (SQLScanner.getDatabaseRules ToLower) "sqldb-002"
        (Target.sqlDatabase (some d)) scanContext = some (Except.ok (true, ""))) ∧
    (props.ZoneRedundant = some true →
      evalRule (SQLScanner.getDatabaseRules ToLower) "sqldb-002"
        (Target.sqlDatabase (some d)) scanContext = some (Except.ok (false, ""))) ∧
    (props.ZoneRedundant = none →
      evalRule (SQLScanner.getDatabaseRules ToLower) "sqldb-002"
        (Target.sqlDatabase (some d)) scanContext = some (Except.ok (true, ""))) := by
  refine ⟨?_, ?_, ?_⟩ <;> intro hz <;>
    simp [evalRule, SQLScanner.getDatabaseRules, GoMap.get?, Target.assertDatabase, deref,
      hp, hz, bind, Except.bind, pure, Except.pure]

/-- Witness of C2: sqldb-002 on three databases whose ZoneRedundant is false, true
and nil. -/
theorem C2_sqldb002_zone_redundancy_witness :
    evalRule (SQLScanner.getDatabaseRules asciiToLower) "sqldb-002"
      (Target.sqlDatabase (some ⟨none, none, none, some ⟨some false⟩, none⟩)) none
      = some (Except.ok (true, "")) ∧
    evalRule (SQLScanner.getDatabaseRules asciiToLower) "sqldb-002"
      (Target.sqlDatabase (some ⟨none, none, none, some ⟨some true⟩, none⟩)) none
      = some (Except.ok (false, "")) ∧
    evalRule (SQLScanner.getDatabaseRules asciiToLower) "sqldb-002"
      (Target.sqlDatabase (some ⟨none, none, none, some ⟨none⟩, none⟩)) none
      = some (Except.ok (true, "")) :=
  ⟨(C2_sqldb002_zone_redundancy asciiToLower ⟨none, none, none, some ⟨some false⟩, none⟩
      ⟨some false⟩ none rfl).1 rfl,
   (C2_sqldb002_zone_redundancy asciiToLower ⟨none, none, none, some ⟨some true⟩, none⟩
      ⟨some true⟩ none rfl).2.1 rfl,
   (C2_sqldb002_zone_redundancy asciiToLower ⟨none, none, none, some ⟨none⟩, none⟩
      ⟨none⟩ none rfl).2.2 rfl⟩

/-- C3: rule cae-002 dereferences `Properties.ZoneRedundant` without a nil check.
On every managed environment whose Properties are present and whose ZoneRedundant
is nil the rule stops with a nil-pointer fault, so it returns no outcome, and in
particular not (broken = true, detail = ""); on an explicit false it returns
(true, "") and on an explicit true (false, ""). -/
theorem C3_cae002_nil_zone_redundant_faults (ToLower : String → String)
    (e : armappcontainers.ManagedEnvironment)
    (vnet : Option armappcontainers.VnetConfiguration)
    (scanContext : Option ScanContext) :
    evalRule (ContainerAppsScanner.GetRules ToLower) "cae-002"
      (Target.managedEnvironment (some { e with Properties := some ⟨none, vnet⟩ }))
      scanContext = some (Except.error Panic.nilDereference) ∧
    evalRule (ContainerAppsScanner.GetRules ToLower) "cae-002"
      (Target.managedEnvironment (some { e with Properties := some ⟨none, vnet⟩ }))
      scanContext ≠ some (Except.ok (true, "")) ∧
    evalRule (ContainerAppsScanner.GetRules ToLower) "cae-002"
      (Target.managedEnvironment (some { e with Properties := some ⟨some false, vnet⟩ }))
      scanContext = some (Except.ok (true, "")) ∧
    evalRule (ContainerAppsScanner.GetRules ToLower) "cae-002"
      (Target.managedEnvironment (some { e with Properties := some ⟨some true, vnet⟩ }))
      scanContext = some (Except.ok (false, "")) := by
  simp [evalRule, ContainerAppsScanner.GetRules, GoMap.get?,
    Target.assertManagedEnvironment, deref, bind, Except.bind, pure, Except.pure]

/-! ## SLA rule -/

/-- C4: for every SQL database whose Properties, SKU and SKU tier are present, rule
sqldb-003 is never broken; its detail is "99.995%" exactly when ZoneRedundant is
present and true and the tier is "Premium", and "99.99%" exactly when one of the two
conditions fails. -/
theorem C4_sqldb003_sla (ToLower : String → String) (d : armsql.Database)
    (props : armsql.DatabaseProperties) (sku : armsql.SKU) (tier : String)
    (scanContext : Option ScanContext)
    (hp : d.Properties = some props) (hs : d.SKU = some sku) (ht : sku.Tier = some tier) :
    ∃ detail, evalRule (SQLScanner.getDatabaseRules ToLower) "sqldb-003"
        (Target.sqlDatabase (some d)) scanContext = some (Except.ok (false, detail)) ∧
      (detail = "99.995%" ↔ (props.ZoneRedundant = some true ∧ tier = "Premium")) ∧
      (detail = "99.99%" ↔ ¬ (props.ZoneRedundant = some true ∧ tier = "Premium")) := by
  obtain ⟨zr⟩ := props
  rcases zr with _ | _ | _ <;> by_cases hT : tier = "Premium" <;>
    simp [evalRule, SQLScanner.getDatabaseRules, GoMap.get?, Target.assertDatabase, deref,
      goAnd, hp, hs, ht, hT, bind, Except.bind, pure, Except.pure]

/-- Witness of C4: a zone-redundant Premium database, and a zone-redundant database of
another tier. -/
theorem C4_sqldb003_sla_witness :
    (∃ detail, evalRule (SQLScanner.getDatabaseRules asciiToLower) "sqldb-003"
        (Target.sqlDatabase
          (some ⟨none, none, none, some ⟨some true⟩, some ⟨none, some "Premium"⟩⟩)) none
        = some (Except.ok (false, detail)) ∧
      (detail = "99.995%" ↔ ((some true : Option Bool) = some true ∧ "Premium" = "Premium")) ∧
      (detail = "99.99%" ↔
        ¬ ((some true : Option Bool) = some true ∧ "Premium" = "Premium"))) ∧
    evalRule (SQLScanner.getDatabaseRules asciiToLower) "sqldb-003"
        (Target.sqlDatabase
          (some ⟨none, none, none, some ⟨some true⟩, some ⟨none, some "Premium"⟩⟩)) none
        = some (Except.ok (false, "99.995%")) ∧
    evalRule (SQLScanner.getDatabaseRules asciiToLower) "sqldb-003"
        (Target.sqlDatabase
          (some ⟨none, none, none, some ⟨some true⟩, some ⟨none, some "Standard"⟩⟩)) none
        = some (Except.ok (false, "99.99%")) :=
  ⟨C4_sqldb003_sla asciiToLower
      ⟨none, none, none, some ⟨some true⟩, some ⟨none, some "Premium"⟩⟩
      ⟨some true⟩ ⟨none, some "Premium"⟩ "Premium" none rfl rfl rfl,
    by decide, by decide⟩

/-! ## Naming-convention rules -/

theorem HasPrefix_iff (s p : String) :
    HasPrefix s p = true ↔ ∃ rest : String, s = p ++ rest := by
  constructor
  · intro h
    simp only [HasPrefix, Bool.and_eq_true, decide_eq_true_eq, beq_iff_eq] at h
    refine ⟨String.mk (s.data.drop p.data.length), ?_⟩
    apply String.ext
    rw [String.data_append]
    conv_lhs => rw [← List.take_append_drop p.data.length s.data]
    rw [h.2]
  · rintro ⟨rest, rfl⟩
    simp [HasPrefix, String.data_append]

theorem not_HasPrefix_iff (s p : String) :
    (!HasPrefix s p) = true ↔ ¬ ∃ rest : String, s = p ++ rest := by
  rw [← HasPrefix_iff]; cases HasPrefix s p <;> simp

/-- C5: for every resource whose Name is present, each of the rules sql-006 (prefix
"sql"), sqldb-006 (prefix "sqldb") and cae-006 (prefix "cae") returns an outcome whose
broken flag is true if and only if the name is not the required prefix followed by
some rest, the comparison being exact on every character, and whose detail is empty.
For sql-006 the name "sql-prod-01" is not broken, "prod-sql-01" and "SQL-prod-01" are
broken. -/
theorem C5_naming_convention_rules (ToLower : String → String)
    (scanContext : Option ScanContext) :
    (∀ (s : armsql.Server) (name : String), s.Name = some name →
      ∃ broken, evalRule (SQLScanner.getServerRules ToLower) "sql-006"
          (Target.sqlServer (some s)) scanContext = some (Except.ok (broken, ""))
        ∧ (broken = true ↔ ¬ ∃ rest : String, name = "sql" ++ rest)) ∧
    (∀ (d : armsql.Database) (name : String), d.Name = some name →
      ∃ broken, evalRule (SQLScanner.getDatabaseRules ToLower) "sqldb-006"
          (Target.sqlDatabase (some d)) scanContext = some (Except.ok (broken, ""))
        ∧ (broken = true ↔ ¬ ∃ rest : String, name = "sqldb" ++ rest)) ∧
    (∀ (e : armappcontainers.ManagedEnvironment) (name : String), e.Name = some name →
      ∃ broken, evalRule (ContainerAppsScanner.GetRules ToLower) "cae-006"
          (Target.managedEnvironment (some e)) scanContext = some (Except.ok (broken, ""))
        ∧ (broken = true ↔ ¬ ∃ rest : String, name = "cae" ++ rest)) ∧
    (∀ (s : armsql.Server),
      (s.Name = some "sql-prod-01" →
        evalRule (SQLScanner.getServerRules ToLower) "sql-006"
          (Target.sqlServer (some s)) scanContext = some (Except.ok (false, ""))) ∧
      (s.Name = some "prod-sql-01" →
        evalRule (SQLScanner.getServerRules ToLower) "sql-006"
          (Target.sqlServer (some s)) scanContext = some (Except.ok (true, ""))) ∧
      (s.Name = some "SQL-prod-01" →
        evalRule (SQLScanner.getServerRules ToLower) "sql-006"
          (Target.sqlServer (some s)) scanContext = some (Except.ok (true, "")))) := by
  refine ⟨?_, ?_, ?_, ?_⟩
  · intro s name h
    refine ⟨!HasPrefix name "sql", ?_, not_HasPrefix_iff _ _⟩
    simp [evalRule, SQLScanner.getServerRules, GoMap.get?, Target.assertServer, deref, h,
      bind, Except.bind, pure, Except.pure]
  · intro d name h
    refine ⟨!HasPrefix name "sqldb", ?_, not_HasPrefix_iff _ _⟩
    simp [evalRule, SQLScanner.getDatabaseRules, GoMap.get?, Target.assertDatabase, deref, h,
      bind, Except.bind, pure, Except.pure]
  · intro e name h
    refine ⟨!HasPrefix name "cae", ?_, not_HasPrefix_iff _ _⟩
    simp [evalRule, ContainerAppsScanner.GetRules, GoMap.get?,
      Target.assertManagedEnvironment, deref, h, bind, Except.bind, pure, Except.pure]
  · intro s
    have h1 : HasPrefix "sql-prod-01" "sql" = true := by decide
    have h2 : HasPrefix "prod-sql-01" "sql" = false := by decide
    have h3 : HasPrefix "SQL-prod-01" "sql" = false := by decide
    refine ⟨?_, ?_, ?_⟩ <;> intro h <;>
      simp [evalRule, SQLScanner.getServerRules, GoMap.get?, Target.assertServer, deref, h,
        h1, h2, h3, bind, Except.bind, pure, Except.pure]

/-- Witness of C5: the three names of the claim on sql-006, and one database and one
managed environment. -/
theorem C5_naming_convention_rules_witness :
    evalRule (SQLScanner.getServerRules asciiToLower) "sql-006"
      (Target.sqlServer (some ⟨none, some "sql-prod-01", none, none⟩)) none
      = some (Except.ok (false, "")) ∧
    evalRule (SQLScanner.getServerRules asciiToLower) "sql-006"
      (Target.sqlServer (some ⟨none, some "prod-sql-01", none, none⟩)) none
      = some (Except.ok (true, "")) ∧
    evalRule (SQLScanner.getServerRules asciiToLower) "sql-006"
      (Target.sqlServer (some ⟨none, some "SQL-prod-01", none, none⟩)) none
      = some (Except.ok (true, "")) ∧
    (∃ broken, evalRule (SQLScanner.getDatabaseRules asciiToLower) "sqldb-006"
        (Target.sqlDatabase (some ⟨none, some "sqldb-x", none, none, none⟩)) none
        = some (Except.ok (broken, ""))
      ∧ (broken = true ↔ ¬ ∃ rest : String, "sqldb-x" = "sqldb" ++ rest)) ∧
    (∃ broken, evalRule (ContainerAppsScanner.GetRules asciiToLower) "cae-006"
        (Target.managedEnvironment (some ⟨none, some "env-1", none, none⟩)) none
        = some (Except.ok (broken, ""))
      ∧ (broken = true ↔ ¬ ∃ rest : String, "env-1" = "cae" ++ rest)) :=
  ⟨((C5_naming_convention_rules asciiToLower none).2.2.2
      ⟨none, some "sql-prod-01", none, none⟩).1 rfl,
   ((C5_naming_convention_rules asciiToLower none).2.2.2
      ⟨none, some "prod-sql-01", none, none⟩).2.1 rfl,
   ((C5_naming_convention_rules asciiToLower none).2.2.2
      ⟨none, some "SQL-prod-01", none, none⟩).2.2 rfl,
   (C5_naming_convention_rules asciiToLower none).2.1
      ⟨none, some "sqldb-x", none, none, none⟩ "sqldb-x" rfl,
   (C5_naming_convention_rules asciiToLower none).2.2.1
      ⟨none, some "env-1", none, none⟩ "env-1" rfl⟩

/-! ## TLS rule -/

/-- C6: for every SQL server whose Properties are present, rule sql-008 returns an
outcome with empty detail that is not broken if and only if MinimalTLSVersion is
present and equal to "1.2"; a nil field and the values "1.0", "1.3" and "" are
broken. -/
theorem C6_sql008_tls (ToLower : String → String) (s : armsql.Server)
    (props : armsql.ServerProperties) (scanContext : Option ScanContext)
    (hp : s.Properties = some props) :
    ∃ broken, evalRule (SQLScanner.getServerRules ToLower) "sql-008"
        (Target.sqlServer (some s)) scanContext = some (Except.ok (broken, "")) ∧
      (broken = false ↔ props.MinimalTLSVersion = some "1.2") ∧
      (props.MinimalTLSVersion = none → broken = true) ∧
      (∀ v, props.MinimalTLSVersion = some v → v ≠ "1.2" → broken = true) ∧
      (props.MinimalTLSVersion = some "1.0" ∨ props.MinimalTLSVersion = some "1.3" ∨
        props.MinimalTLSVersion = some "" → broken = true) := by
  obtain ⟨pe, tls⟩ := props
  cases tls with
  | none =>
    refine ⟨true, ?_, by simp, by simp, by simp, by simp⟩
    simp [evalRule, SQLScanner.getServerRules, GoMap.get?, Target.assertServer, deref, goOr,
      hp, bind, Except.bind, pure, Except.pure]
  | some v =>
    refine ⟨v != "1.2", ?_, by simp, by simp, ?_, ?_⟩
    · simp [evalRule, SQLScanner.getServerRules, GoMap.get?, Target.assertServer, deref,
        goOr, hp, bind, Except.bind, pure, Except.pure]
    · intro w hw hne
      simp only [Option.some.injEq] at hw
      subst hw
      simpa using hne
    · intro h
      simp only [Option.some.injEq] at h
      rcases h with rfl | rfl | rfl <;> decide

/-- Witness of C6: sql-008 on a server with TLS "1.2" and on one with TLS "1.0". -/
theorem C6_sql008_tls_witness :
    (∃ broken, evalRule (SQLScanner.getServerRules asciiToLower) "sql-008"
        (Target.sqlServer (some ⟨none, none, none, some ⟨[], some "1.2"⟩⟩)) none
        = some (Except.ok (broken, "")) ∧
      (broken = false ↔ (some "1.2" : Option String) = some "1.2") ∧
      ((some "1.2" : Option String) = none → broken = true) ∧
      (∀ v, (some "1.2" : Option String) = some v → v ≠ "1.2" → broken = true) ∧
      ((some "1.2" : Option String) = some "1.0" ∨
        (some "1.2" : Option String) = some "1.3" ∨
        (some "1.2" : Option String) = some "" → broken = true)) ∧
    evalRule (SQLScanner.getServerRules asciiToLower) "sql-008"
        (Target.sqlServer (some ⟨none, none, none, some ⟨[], some "1.2"⟩⟩)) none
        = some (Except.ok (false, "")) ∧
    evalRule (SQLScanner.getServerRules asciiToLower) "sql-008"
        (Target.sqlServer (some ⟨none, none, none, some ⟨[], some "1.0"⟩⟩)) none
        = some (Except.ok (true, "")) ∧
    evalRule (SQLScanner.getServerRules asciiToLower) "sql-008"
        (Target.sqlServer (some ⟨none, none, none, some ⟨[], none⟩⟩)) none
        = some (Except.ok (true, "")) :=
  ⟨C6_sql008_tls asciiToLower ⟨none, none, none, some ⟨[], some "1.2"⟩⟩
      ⟨[], some "1.2"⟩ none rfl,
    by decide, by decide, by decide⟩

/-! ## Tag rules -/

/-- C7: for every resource, each of the rules sql-007, sqldb-007 and cae-007 returns
an outcome with empty detail whose broken flag is true if and only if the Tags map
is nil or has no entries. -/
theorem C7_tag_rules (ToLower : String → String) (scanContext : Option ScanContext) :
    (∀ (s : armsql.Server),
      ∃ broken, evalRule (SQLScanner.getServerRules ToLower) "sql-007"
          (Target.sqlServer (some s)) scanContext = some (Except.ok (broken, ""))
        ∧ (broken = true ↔ (s.Tags = none ∨ s.Tags = some []))) ∧
    (∀ (d : armsql.Database),
      ∃ broken, evalRule (SQLScanner.getDatabaseRules ToLower) "sqldb-007"
          (Target.sqlDatabase (some d)) scanContext = some (Except.ok (broken, ""))
        ∧ (broken = true ↔ (d.Tags = none ∨ d.Tags = some []))) ∧
    (∀ (e : armappcontainers.ManagedEnvironment),
      ∃ broken, evalRule (ContainerAppsScanner.GetRules ToLower) "cae-007"
          (Target.managedEnvironment (some e)) scanContext = some (Except.ok (broken, ""))
        ∧ (broken = true ↔ (e.Tags = none ∨ e.Tags = some []))) := by
  have key : ∀ m : Option (GoMap (Option String)),
      lenIsZero m = true ↔ (m = none ∨ m = some []) := by
    intro m
    cases m with
    | none => simp [lenIsZero]
    | some l => cases l <;> simp [lenIsZero]
  refine ⟨?_, ?_, ?_⟩
  · intro s
    refine ⟨lenIsZero s.Tags, ?_, key _⟩
    simp [evalRule, SQLScanner.getServerRules, GoMap.get?, Target.assertServer, deref,
      bind, Except.bind, pure, Except.pure]
  · intro d
    refine ⟨lenIsZero d.Tags, ?_, key _⟩
    simp [evalRule, SQLScanner.getDatabaseRules, GoMap.get?, Target.assertDatabase, deref,
      bind, Except.bind, pure, Except.pure]
  · intro e
    refine ⟨lenIsZero e.Tags, ?_, key _⟩
    simp [evalRule, ContainerAppsScanner.GetRules, GoMap.get?,
      Target.assertManagedEnvironment, deref, bind, Except.bind, pure, Except.pure]

/-! ## Catalog invariants -/

theorem GoMap.get?_eq_none_iff {α : Type} (m : GoMap α) (key : String) :
    m.get? key = none ↔ key ∉ m.keys := by
  rw [← GoMap.get?_isSome_iff]
  cases m.get? key <;> simp

theorem GoMap.get?_append {α : Type} (a b : GoMap α) (key : String) :
    GoMap.get? (a ++ b) key = (match a.get? key with
      | some r => some r
      | none => b.get? key) := by
  induction a with
  | nil => simp [GoMap.get?]
  | cons e a ih =>
    obtain ⟨k, v⟩ := e
    by_cases h : k = key
    · simp [GoMap.get?, h]
    · simpa [GoMap.get?, h] using ih

theorem GoMap.mem_keys_of_get? {α : Type} (m : GoMap α) (key : String) (r : α)
    (h : m.get? key = some r) : key ∈ m.keys := by
  rw [← GoMap.get?_isSome_iff, h]; rfl

/-- Every entry of a catalog satisfies a Boolean check when `List.all` says so. -/
theorem GoMap.forall_of_all {α : Type} (m : GoMap α) (p : String × α → Bool)
    (h : m.all p = true) : ∀ k r, (k, r) ∈ m → p (k, r) = true := by
  intro k r hm
  exact (List.all_eq_true.mp h) (k, r) hm

/-- The merge of `SQLScanner.GetRules` never meets an existing key: the merged catalog
is the server catalog followed by the database catalog. -/
theorem SQLScanner.GetRules_eq_append (ToLower : String → String) :
    SQLScanner.GetRules ToLower
      = SQLScanner.getServerRules ToLower ++ SQLScanner.getDatabaseRules ToLower := by
  rfl

/-- C8: in the catalogs returned by `ContainerAppsScanner.GetRules` and
`SQLScanner.GetRules` every key is a non-empty string equal to the Id of the rule
stored under it, the keys are pairwise different, and so are the ids of the rules. -/
theorem C8_catalog_keys_are_rule_ids (ToLower : String → String) :
    (∀ k r, (k, r) ∈ ContainerAppsScanner.GetRules ToLower → k ≠ "" ∧ r.Id = k) ∧
    (ContainerAppsScanner.GetRules ToLower).keys.Nodup ∧
    ((ContainerAppsScanner.GetRules ToLower).map (fun e => e.2.Id)).Nodup ∧
    (∀ k r, (k, r) ∈ SQLScanner.GetRules ToLower → k ≠ "" ∧ r.Id = k) ∧
    (SQLScanner.GetRules ToLower).keys.Nodup ∧
    ((SQLScanner.GetRules ToLower).map (fun e => e.2.Id)).Nodup := by
  have hc : ((ContainerAppsScanner.GetRules ToLower).all
      (fun e => e.1 != "" && e.2.Id == e.1)) = true := by rfl
  have hs : ((SQLScanner.GetRules ToLower).all
      (fun e => e.1 != "" && e.2.Id == e.1)) = true := by rfl
  have hck : (ContainerAppsScanner.GetRules ToLower).keys
      = ["cae-001", "cae-002", "cae-003", "cae-004", "cae-006", "cae-007"] := by rfl
  have hci : (ContainerAppsScanner.GetRules ToLower).map (fun e => e.2.Id)
      = ["cae-001", "cae-002", "cae-003", "cae-004", "cae-006", "cae-007"] := by rfl
  have hsk : (SQLScanner.GetRules ToLower).keys
      = ["sql-001", "sql-004", "sql-006", "sql-007", "sql-008", "sqldb-001", "sqldb-002",
          "sqldb-003", "sqldb-005", "sqldb-006", "sqldb-007"] := by rfl
  have hsi : (SQLScanner.GetRules ToLower).map (fun e => e.2.Id)
      = ["sql-001", "sql-004", "sql-006", "sql-007", "sql-008", "sqldb-001", "sqldb-002",
          "sqldb-003", "sqldb-005", "sqldb-006", "sqldb-007"] := by rfl
  refine ⟨?_, ?_, ?_, ?_, ?_, ?_⟩
  · intro k r hm
    have h := GoMap.forall_of_all _ _ hc k r hm
    simpa using h
  · rw [hck]; decide
  · rw [hci]; decide
  · intro k r hm
    have h := GoMap.forall_of_all _ _ hs k r hm
    simpa using h
  · rw [hsk]; decide
  · rw [hsi]; decide

/-- Witness of C8: the first entry of each catalog, under the ASCII lower-casing. -/
theorem C8_catalog_keys_are_rule_ids_witness :
    (∃ r, ("cae-001", r) ∈ ContainerAppsScanner.GetRules asciiToLower ∧
      "cae-001" ≠ "" ∧ r.Id = "cae-001") ∧
    (∃ r, ("sql-001", r) ∈ SQLScanner.GetRules asciiToLower ∧
      "sql-001" ≠ "" ∧ r.Id = "sql-001") :=
  ⟨⟨_, List.Mem.head _,
      (C8_catalog_keys_are_rule_ids asciiToLower).1 _ _ (List.Mem.head _)⟩,
   ⟨_, List.Mem.head _,
      (C8_catalog_keys_are_rule_ids asciiToLower).2.2.2.1 _ _ (List.Mem.head _)⟩⟩

/-- C9, as stated, fails on the entry counts: the database sub-catalog has six rules,
not seven, and the merged catalog has eleven entries, not twelve. -/
theorem C9_entry_count_counterexample :
    ¬ ((SQLScanner.getServerRules asciiToLower).length = 5 ∧
       (SQLScanner.getDatabaseRules asciiToLower).length = 7 ∧
       (SQLScanner.GetRules asciiToLower).length = 12) ∧
    (SQLScanner.getDatabaseRules asciiToLower).keys
      = ["sqldb-001", "sqldb-002", "sqldb-003", "sqldb-005", "sqldb-006", "sqldb-007"] ∧
    (SQLScanner.getDatabaseRules asciiToLower).length = 6 ∧
    (SQLScanner.GetRules asciiToLower).length = 11 := by
  refine ⟨?_, rfl, rfl, rfl⟩
  rintro ⟨_, h, _⟩
  exact absurd h (by decide)

/-- C9, amended: `SQLScanner.GetRules` is the disjoint union of its two sub-catalogs.
The server and database catalogs have no key in common; no write of the merge loop
meets an existing key, so the merged catalog is the server entries followed by the
database entries; a rule is stored under a key of the merged catalog exactly when it
is stored under that key in one of the two sub-catalogs, and its Id is that key; and
the sizes are 5 server rules + 6 database rules = 11 entries. -/
theorem C9_sql_catalog_disjoint_union (ToLower : String → String) :
    (∀ k, k ∈ (SQLScanner.getServerRules ToLower).keys →
      k ∉ (SQLScanner.getDatabaseRules ToLower).keys) ∧
    SQLScanner.GetRules ToLower
      = SQLScanner.getServerRules ToLower ++ SQLScanner.getDatabaseRules ToLower ∧
    (∀ k r, (SQLScanner.GetRules ToLower).get? k = some r ↔
      ((SQLScanner.getServerRules ToLower).get? k = some r ∨
       (SQLScanner.getDatabaseRules ToLower).get? k = some r)) ∧
    (∀ k r, (SQLScanner.GetRules ToLower).get? k = some r → r.Id = k) ∧
    (SQLScanner.getServerRules ToLower).length = 5 ∧
    (SQLScanner.getDatabaseRules ToLower).length = 6 ∧
    (SQLScanner.GetRules ToLower).length = 11 := by
  have hsk : (SQLScanner.getServerRules ToLower).keys
      = ["sql-001", "sql-004", "sql-006", "sql-007", "sql-008"] := by rfl
  have hdk : (SQLScanner.getDatabaseRules ToLower).keys
      = ["sqldb-001", "sqldb-002", "sqldb-003", "sqldb-005", "sqldb-006", "sqldb-007"] := by
    rfl
  have hdisj : ∀ k, k ∈ (SQLScanner.getServerRules ToLower).keys →
      k ∉ (SQLScanner.getDatabaseRules ToLower).keys := by
    intro k hk
    rw [hsk] at hk
    rw [hdk]
    simp only [List.mem_cons, List.mem_singleton, List.not_mem_nil, or_false] at hk
    rcases hk with rfl | rfl | rfl | rfl | rfl <;> decide
  have hid : ((SQLScanner.GetRules ToLower).all (fun e => e.2.Id == e.1)) = true := by rfl
  have hmem : ∀ (m : GoMap AzureRule) k r, m.get? k = some r → (k, r) ∈ m := by
    intro m
    induction m with
    | nil => intro k r h; simp [GoMap.get?] at h
    | cons e m ih =>
      intro k r h
      obtain ⟨k0, v⟩ := e
      by_cases hk : k0 = k
      · simp only [GoMap.get?, hk, if_true, Option.some.injEq] at h
        subst hk; subst h
        exact List.mem_cons_self _ _
      · simp only [GoMap.get?, hk, if_false] at h
        exact List.mem_cons_of_mem _ (ih k r h)
  refine ⟨hdisj, rfl, ?_, ?_, rfl, rfl, rfl⟩
  · intro k r
    rw [SQLScanner.GetRules_eq_append, GoMap.get?_append]
    cases hs : (SQLScanner.getServerRules ToLower).get? k with
    | some r0 =>
      have hks := GoMap.mem_keys_of_get? _ _ _ hs
      have hnd := (GoMap.get?_eq_none_iff _ _).mpr (hdisj k hks)
      simp [hnd]
    | none => simp
  · intro k r h
    have h2 := GoMap.forall_of_all _ _ hid k r (hmem _ k r h)
    simpa using h2

/-- Witness of C9: the key "sql-001" of the server catalog is not a key of the
database catalog, and the rule stored under "sqldb-003" in the merged catalog is the
one of the database catalog, with that Id. -/
theorem C9_sql_catalog_disjoint_union_witness :
    "sql-001" ∈ (SQLScanner.getServerRules asciiToLower).keys ∧
    "sql-001" ∉ (SQLScanner.getDatabaseRules asciiToLower).keys ∧
    (∃ r, (SQLScanner.GetRules asciiToLower).get? "sqldb-003" = some r ∧
      (SQLScanner.getDatabaseRules asciiToLower).get? "sqldb-003" = some r ∧
      r.Id = "sqldb-003") :=
  ⟨by decide,
   (C9_sql_catalog_disjoint_union asciiToLower).1 "sql-001" (by decide),
   ⟨_, rfl, rfl, (C9_sql_catalog_disjoint_union asciiToLower).2.2.2.1 "sqldb-003" _ rfl⟩⟩

/-! ## Scan -/

/-- A loop that appends one finding per resource yields the findings in listing
order. -/
theorem scan_loop {R : Type} (rs : List R)
    (step : List AzureServiceResult → Option R → Except Panic (List AzureServiceResult))
    (mk : R → AzureServiceResult)
    (h : ∀ acc r, r ∈ rs → step acc (some r) = Except.ok (acc ++ [mk r])) :
    ∀ acc, (rs.map some).foldlM step acc = Except.ok (acc ++ rs.map mk) := by
  induction rs with
  | nil => intro acc; simp [pure, Except.pure]
  | cons r rs ih =>
    intro acc
    have hr := h acc r (List.mem_cons_self _ _)
    have ih2 := ih (fun acc x hx => h acc x (List.mem_cons_of_mem _ hx)) (acc ++ [mk r])
    simp only [List.map_cons, List.foldlM_cons, hr, bind, Except.bind]
    rw [ih2]
    simp

theorem findingsFor_map {R : Type} (subscriptionID resourceGroup : String)
    (name type location : R → Option String) (rules : R → GoMap Outcome) (rs : List R)
    (h : ∀ r, r ∈ rs → (name r).isSome ∧ (type r).isSome ∧ (location r).isSome) :
    FindingsFor subscriptionID resourceGroup name type location rules rs
      (rs.map (fun r =>
        { SubscriptionID := subscriptionID
          ResourceGroup := resourceGroup
          ServiceName := (name r).getD ""
          Type_ := (type r).getD ""
          Location := (location r).getD ""
          Rules := rules r })) := by
  refine ⟨by simp, ?_, ?_⟩
  · intro i r hi
    have hm : r ∈ rs := List.getElem?_mem hi
    obtain ⟨h1, h2, h3⟩ := h r hm
    obtain ⟨n, hn⟩ := Option.isSome_iff_exists.mp h1
    obtain ⟨t, ht⟩ := Option.isSome_iff_exists.mp h2
    obtain ⟨l, hl⟩ := Option.isSome_iff_exists.mp h3
    refine ⟨_, by rw [List.getElem?_map, hi]; rfl, rfl, rfl, ?_, ?_, ?_, rfl⟩
    · simp [hn]
    · simp [ht]
    · simp [hl]
  · rintro rfl; rfl

/-- C10: for each of the AKS, Container Instance, Container Registry, MySQL Flexible
and WebPubSub scanners, with the listing method, `EvaluateRules` and `GetRules` given:
when the scanner has its config and the listing returns no error and the resources
r1..rn, each with Name, Type and Location, `Scan` returns no error and exactly n
findings in listing order; the i-th finding has the SubscriptionID of the config, the
resource group of the call, the name, type and location of ri and the rules
`EvaluateRules(GetRules(), ri, scanContext)`; for an empty listing the result is the
empty list. -/
theorem C10_scan_findings :
    (∀ (a : AKSScanner) (cfg : ScannerConfig) (list : String → Listing armcontainerservice.ManagedCluster)
        (EvaluateRules : EvaluateRulesFn) (GetRules : GoMap AzureRule)
        (resourceGroupName : String) (scanContext : Option ScanContext)
        (rs : List armcontainerservice.ManagedCluster),
      a.config = some cfg →
      list resourceGroupName = (rs.map some, none) →
      (∀ r, r ∈ rs → r.Name.isSome ∧ r.Type_.isSome ∧ r.Location.isSome) →
      ∃ results,
        a.Scan list EvaluateRules GetRules resourceGroupName scanContext
          = Except.ok (results, none) ∧
        FindingsFor cfg.SubscriptionID resourceGroupName
          (fun r => r.Name) (fun r => r.Type_) (fun r => r.Location)
          (fun r => EvaluateRules GetRules (Target.managedCluster (some r)) scanContext)
          rs results) ∧
    (∀ (a : ContainerInstanceScanner) (cfg : ScannerConfig) (list : String → Listing armcontainerinstance.ContainerGroup)
        (EvaluateRules : EvaluateRulesFn) (GetRules : GoMap AzureRule)
        (resourceGroupName : String) (scanContext : Option ScanContext)
        (rs : List armcontainerinstance.ContainerGroup),
      a.config = some cfg →
      list resourceGroupName = (rs.map some, none) →
      (∀ r, r ∈ rs → r.Name.isSome ∧ r.Type_.isSome ∧ r.Location.isSome) →
      ∃ results,
        a.Scan list EvaluateRules GetRules resourceGroupName scanContext
          = Except.ok (results, none) ∧
        FindingsFor cfg.SubscriptionID resourceGroupName
          (fun r => r.Name) (fun r => r.Type_) (fun r => r.Location)
          (fun r => EvaluateRules GetRules (Target.containerGroup (some r)) scanContext)
          rs results) ∧
    (∀ (a : ContainerRegistryScanner) (cfg : ScannerConfig) (list : String → Listing armcontainerregistry.Registry)
        (EvaluateRules : EvaluateRulesFn) (GetRules : GoMap AzureRule)
        (resourceGroupName : String) (scanContext : Option ScanContext)
        (rs : List armcontainerregistry.Registry),
      a.config = some cfg →
      list resourceGroupName = (rs.map some, none) →
      (∀ r, r ∈ rs → r.Name.isSome ∧ r.Type_.isSome ∧ r.Location.isSome) →
      ∃ results,
        a.Scan list EvaluateRules GetRules resourceGroupName scanContext
          = Except.ok (results, none) ∧
        FindingsFor cfg.SubscriptionID resourceGroupName
          (fun r => r.Name) (fun r => r.Type_) (fun r => r.Location)
          (fun r => EvaluateRules GetRules (Target.registry (some r)) scanContext)
          rs results) ∧
    (∀ (a : MySQLFlexibleScanner) (cfg : ScannerConfig) (list : String → Listing armmysqlflexibleservers.Server)
        (EvaluateRules : EvaluateRulesFn) (GetRules : GoMap AzureRule)
        (resourceGroupName : String) (scanContext : Option ScanContext)
        (rs : List armmysqlflexibleservers.Server),
      a.config = some cfg →
      list resourceGroupName = (rs.map some, none) →
      (∀ r, r ∈ rs → r.Name.isSome ∧ r.Type_.isSome ∧ r.Location.isSome) →
      ∃ results,
        a.Scan list EvaluateRules GetRules resourceGroupName scanContext
          = Except.ok (results, none) ∧
        FindingsFor cfg.SubscriptionID resourceGroupName
          (fun r => r.Name) (fun r => r.Type_) (fun r => r.Location)
          (fun r => EvaluateRules GetRules (Target.mysqlFlexibleServer (some r)) scanContext)
          rs results) ∧
    (∀ (a : WebPubSubScanner) (cfg : ScannerConfig) (list : String → Listing armwebpubsub.ResourceInfo)
        (EvaluateRules : EvaluateRulesFn) (GetRules : GoMap AzureRule)
        (resourceGroupName : String) (scanContext : Option ScanContext)
        (rs : List armwebpubsub.ResourceInfo),
      a.config = some cfg →
      list resourceGroupName = (rs.map some, none) →
      (∀ r, r ∈ rs → r.Name.isSome ∧ r.Type_.isSome ∧ r.Location.isSome) →
      ∃ results,
        a.Scan list EvaluateRules GetRules resourceGroupName scanContext
          = Except.ok (results, none) ∧
        FindingsFor cfg.SubscriptionID resourceGroupName
          (fun r => r.Name) (fun r => r.Type_) (fun r => r.Location)
          (fun r => EvaluateRules GetRules (Target.webPubSub (some r)) scanContext)
          rs results) := by
  refine ⟨?_, ?_, ?_, ?_, ?_⟩
  · intro a cfg list EvaluateRules GetRules resourceGroupName scanContext rs hc hl hf
    refine ⟨_, ?_, findingsFor_map cfg.SubscriptionID resourceGroupName
      (fun r => r.Name) (fun r => r.Type_) (fun r => r.Location)
      (fun r => EvaluateRules GetRules (Target.managedCluster (some r)) scanContext) rs hf⟩
    simp only [AKSScanner.Scan, hl]
    rw [scan_loop rs _ _ _ []]
    · rfl
    · intro acc r hr
      obtain ⟨h1, h2, h3⟩ := hf r hr
      obtain ⟨n, hn⟩ := Option.isSome_iff_exists.mp h1
      obtain ⟨t, ht⟩ := Option.isSome_iff_exists.mp h2
      obtain ⟨l, hl2⟩ := Option.isSome_iff_exists.mp h3
      simp [deref, hc, hn, ht, hl2, bind, Except.bind, pure, Except.pure]
  · intro a cfg list EvaluateRules GetRules resourceGroupName scanContext rs hc hl hf
    refine ⟨_, ?_, findingsFor_map cfg.SubscriptionID resourceGroupName
      (fun r => r.Name) (fun r => r.Type_) (fun r => r.Location)
      (fun r => EvaluateRules GetRules (Target.containerGroup (some r)) scanContext) rs hf⟩
    simp only [ContainerInstanceScanner.Scan, hl]
    rw [scan_loop rs _ _ _ []]
    · rfl
    · intro acc r hr
      obtain ⟨h1, h2, h3⟩ := hf r hr
      obtain ⟨n, hn⟩ := Option.isSome_iff_exists.mp h1
      obtain ⟨t, ht⟩ := Option.isSome_iff_exists.mp h2
      obtain ⟨l, hl2⟩ := Option.isSome_iff_exists.mp h3
      simp [deref, hc, hn, ht, hl2, bind, Except.bind, pure, Except.pure]
  · intro a cfg list EvaluateRules GetRules resourceGroupName scanContext rs hc hl hf
    refine ⟨_, ?_, findingsFor_map cfg.SubscriptionID resourceGroupName
      (fun r => r.Name) (fun r => r.Type_) (fun r => r.Location)
      (fun r => EvaluateRules GetRules (Target.registry (some r)) scanContext) rs hf⟩
    simp only [ContainerRegistryScanner.Scan, hl]
    rw [scan_loop rs _ _ _ []]
    · rfl
    · intro acc r hr
      obtain ⟨h1, h2, h3⟩ := hf r hr
      obtain ⟨n, hn⟩ := Option.isSome_iff_exists.mp h1
      obtain ⟨t, ht⟩ := Option.isSome_iff_exists.mp h2
      obtain ⟨l, hl2⟩ := Option.isSome_iff_exists.mp h3
      simp [deref, hc, hn, ht, hl2, bind, Except.bind, pure, Except.pure]
  · intro a cfg list EvaluateRules GetRules resourceGroupName scanContext rs hc hl hf
    refine ⟨_, ?_, findingsFor_map cfg.SubscriptionID resourceGroupName
      (fun r => r.Name) (fun r => r.Type_) (fun r => r.Location)
      (fun r => EvaluateRules GetRules (Target.mysqlFlexibleServer (some r)) scanContext) rs hf⟩
    simp only [MySQLFlexibleScanner.Scan, hl]
    rw [scan_loop rs _ _ _ []]
    · rfl
    · intro acc r hr
      obtain ⟨h1, h2, h3⟩ := hf r hr
      obtain ⟨n, hn⟩ := Option.isSome_iff_exists.mp h1
      obtain ⟨t, ht⟩ := Option.isSome_iff_exists.mp h2
      obtain ⟨l, hl2⟩ := Option.isSome_iff_exists.mp h3
      simp [deref, hc, hn, ht, hl2, bind, Except.bind, pure, Except.pure]
  · intro a cfg list EvaluateRules GetRules resourceGroupName scanContext rs hc hl hf
    refine ⟨_, ?_, findingsFor_map cfg.SubscriptionID resourceGroupName
      (fun r => r.Name) (fun r => r.Type_) (fun r => r.Location)
      (fun r => EvaluateRules GetRules (Target.webPubSub (some r)) scanContext) rs hf⟩
    simp only [WebPubSubScanner.Scan, hl]
    rw [scan_loop rs _ _ _ []]
    · rfl
    · intro acc r hr
      obtain ⟨h1, h2, h3⟩ := hf r hr
      obtain ⟨n, hn⟩ := Option.isSome_iff_exists.mp h1
      obtain ⟨t, ht⟩ := Option.isSome_iff_exists.mp h2
      obtain ⟨l, hl2⟩ := Option.isSome_iff_exists.mp h3
      simp [deref, hc, hn, ht, hl2, bind, Except.bind, pure, Except.pure]

/-- Witness of C10: the AKS scanner on a listing of two clusters. -/
theorem C10_scan_findings_witness :
    ∃ results,
      AKSScanner.Scan ⟨some ⟨"sub-1"⟩⟩
        (fun _ => ([some ⟨some "aks-a", some "t", some "westeurope"⟩,
                    some ⟨some "aks-b", some "t", some "northeurope"⟩], none))
        (fun _ _ _ => [("aks-001", (false, ""))]) [] "rg-1" none
        = Except.ok (results, none) ∧
      FindingsFor "sub-1" "rg-1"
        (fun r : armcontainerservice.ManagedCluster => r.Name)
        (fun r => r.Type_) (fun r => r.Location)
        (fun _ => [("aks-001", (false, ""))])
        [⟨some "aks-a", some "t", some "westeurope"⟩,
         ⟨some "aks-b", some "t", some "northeurope"⟩] results :=
  C10_scan_findings.1 ⟨some ⟨"sub-1"⟩⟩ ⟨"sub-1"⟩
    (fun _ => ([some ⟨some "aks-a", some "t", some "westeurope"⟩,
                some ⟨some "aks-b", some "t", some "northeurope"⟩], none))
    (fun _ _ _ => [("aks-001", (false, ""))]) [] "rg-1" none
    [⟨some "aks-a", some "t", some "westeurope"⟩,
     ⟨some "aks-b", some "t", some "northeurope"⟩]
    rfl rfl (by decide)

/-! ## Absent fields -/

/-- C11, as stated, fails: with every nullable field absent, rule cae-001 of the
Container Apps catalog, rule sql-001 of the server catalog and rule sqldb-001 of the
database catalog stop with a nil-pointer fault, and so do the rules that read
`Properties`, `Name` or `SKU`; none of them returns an outcome. -/
theorem C11_absent_fields_counterexample :
    ¬ (∀ (e : armappcontainers.ManagedEnvironment) (ctx : ScanContext) (k : String) (r : AzureRule),
        (k, r) ∈ ContainerAppsScanner.GetRules asciiToLower →
        ∃ o, r.Eval (Target.managedEnvironment (some e)) (some ctx) = Except.ok o) ∧
    ¬ (∀ (s : armsql.Server) (ctx : ScanContext) (k : String) (r : AzureRule),
        (k, r) ∈ SQLScanner.getServerRules asciiToLower →
        ∃ o, r.Eval (Target.sqlServer (some s)) (some ctx) = Except.ok o) ∧
    ¬ (∀ (d : armsql.Database) (ctx : ScanContext) (k : String) (r : AzureRule),
        (k, r) ∈ SQLScanner.getDatabaseRules asciiToLower →
        ∃ o, r.Eval (Target.sqlDatabase (some d)) (some ctx) = Except.ok o) ∧
    evalRule (ContainerAppsScanner.GetRules asciiToLower) "cae-001" (Target.managedEnvironment (some ⟨none, none, none, none⟩)) (some ⟨none⟩)
      = some (Except.error Panic.nilDereference) ∧
    evalRule (ContainerAppsScanner.GetRules asciiToLower) "cae-004" (Target.managedEnvironment (some ⟨none, none, none, none⟩)) (some ⟨none⟩)
      = some (Except.error Panic.nilDereference) ∧
    evalRule (ContainerAppsScanner.GetRules asciiToLower) "cae-006" (Target.managedEnvironment (some ⟨none, none, none, none⟩)) (some ⟨none⟩)
      = some (Except.error Panic.nilDereference) ∧
    evalRule (SQLScanner.getServerRules asciiToLower) "sql-004" (Target.sqlServer (some ⟨none, none, none, none⟩)) (some ⟨none⟩)
      = some (Except.error Panic.nilDereference) ∧
    evalRule (SQLScanner.getDatabaseRules asciiToLower) "sqldb-003" (Target.sqlDatabase (some ⟨none, none, none, none, none⟩)) (some ⟨none⟩)
      = some (Except.error Panic.nilDereference) ∧
    evalRule (SQLScanner.getDatabaseRules asciiToLower) "sqldb-005" (Target.sqlDatabase (some ⟨none, none, none, none, none⟩)) (some ⟨none⟩)
      = some (Except.error Panic.nilDereference) := by
  refine ⟨?_, ?_, ?_, by decide, by decide, by decide, by decide, by decide, by decide⟩
  · intro h
    obtain ⟨o, ho⟩ := h ⟨none, none, none, none⟩ ⟨none⟩ "cae-001" _ (List.Mem.head _)
    cases ho
  · intro h
    obtain ⟨o, ho⟩ := h ⟨none, none, none, none⟩ ⟨none⟩ "sql-001" _ (List.Mem.head _)
    cases ho
  · intro h
    obtain ⟨o, ho⟩ := h ⟨none, none, none, none, none⟩ ⟨none⟩ "sqldb-001" _ (List.Mem.head _)
    cases ho

/-- C11, amended: a rule returns an outcome whenever the fields it dereferences
without a guard are present.  On every (non-nil) resource of its type: the
diagnostic-settings rules return when the ID is present and the scan context is not
nil; the naming rules when the Name is present; sql-004, sql-008 and sqldb-002 when
Properties are present; sqldb-003 when Properties are present and, if ZoneRedundant is
true, SKU and SKU.Tier are present; sqldb-005 when SKU and SKU.Name are present;
cae-002 when Properties and ZoneRedundant are present; cae-004 when Properties are
present and, if VnetConfiguration is present, its Internal is present; the tag rules
on every resource and cae-003 on every target.  The other nullable fields (Tags,
MinimalTLSVersion, VnetConfiguration, ZoneRedundant of a database) may be absent. -/
theorem C11_rules_return_when_read_fields_present (ToLower : String → String) :
    (∀ (e : armappcontainers.ManagedEnvironment) (ctx : ScanContext) (id : String), e.ID = some id →
      ∃ o, evalRule (ContainerAppsScanner.GetRules ToLower) "cae-001" (Target.managedEnvironment (some e)) (some ctx) = some (Except.ok o)) ∧
    (∀ (e : armappcontainers.ManagedEnvironment) (scanContext : Option ScanContext)
        (props : armappcontainers.ManagedEnvironmentProperties) (z : Bool),
      e.Properties = some props → props.ZoneRedundant = some z →
      ∃ o, evalRule (ContainerAppsScanner.GetRules ToLower) "cae-002" (Target.managedEnvironment (some e)) scanContext = some (Except.ok o)) ∧
    (∀ (target : Target) (scanContext : Option ScanContext),
      ∃ o, evalRule (ContainerAppsScanner.GetRules ToLower) "cae-003" target scanContext = some (Except.ok o)) ∧
    (∀ (e : armappcontainers.ManagedEnvironment) (scanContext : Option ScanContext)
        (props : armappcontainers.ManagedEnvironmentProperties),
      e.Properties = some props →
      (props.VnetConfiguration = none ∨
        ∃ vnet i, props.VnetConfiguration = some vnet ∧ vnet.Internal = some i) →
      ∃ o, evalRule (ContainerAppsScanner.GetRules ToLower) "cae-004" (Target.managedEnvironment (some e)) scanContext = some (Except.ok o)) ∧
    (∀ (e : armappcontainers.ManagedEnvironment) (scanContext : Option ScanContext) (name : String), e.Name = some name →
      ∃ o, evalRule (ContainerAppsScanner.GetRules ToLower) "cae-006" (Target.managedEnvironment (some e)) scanContext = some (Except.ok o)) ∧
    (∀ (e : armappcontainers.ManagedEnvironment) (scanContext : Option ScanContext),
      ∃ o, evalRule (ContainerAppsScanner.GetRules ToLower) "cae-007" (Target.managedEnvironment (some e)) scanContext = some (Except.ok o)) ∧
    (∀ (s : armsql.Server) (ctx : ScanContext) (id : String), s.ID = some id →
      ∃ o, evalRule (SQLScanner.getServerRules ToLower) "sql-001" (Target.sqlServer (some s)) (some ctx) = some (Except.ok o)) ∧
    (∀ (s : armsql.Server) (scanContext : Option ScanContext) (props : armsql.ServerProperties),
      s.Properties = some props →
      ∃ o, evalRule (SQLScanner.getServerRules ToLower) "sql-004" (Target.sqlServer (some s)) scanContext = some (Except.ok o)) ∧
    (∀ (s : armsql.Server) (scanContext : Option ScanContext) (name : String), s.Name = some name →
      ∃ o, evalRule (SQLScanner.getServerRules ToLower) "sql-006" (Target.sqlServer (some s)) scanContext = some (Except.ok o)) ∧
    (∀ (s : armsql.Server) (scanContext : Option ScanContext),
      ∃ o, evalRule (SQLScanner.getServerRules ToLower) "sql-007" (Target.sqlServer (some s)) scanContext = some (Except.ok o)) ∧
    (∀ (s : armsql.Server) (scanContext : Option ScanContext) (props : armsql.ServerProperties),
      s.Properties = some props →
      ∃ o, evalRule (SQLScanner.getServerRules ToLower) "sql-008" (Target.sqlServer (some s)) scanContext = some (Except.ok o)) ∧
    (∀ (d : armsql.Database) (ctx : ScanContext) (id : String), d.ID = some id →
      ∃ o, evalRule (SQLScanner.getDatabaseRules ToLower) "sqldb-001" (Target.sqlDatabase (some d)) (some ctx) = some (Except.ok o)) ∧
    (∀ (d : armsql.Database) (scanContext : Option ScanContext) (props : armsql.DatabaseProperties),
      d.Properties = some props →
      ∃ o, evalRule (SQLScanner.getDatabaseRules ToLower) "sqldb-002" (Target.sqlDatabase (some d)) scanContext = some (Except.ok o)) ∧
    (∀ (d : armsql.Database) (scanContext : Option ScanContext) (props : armsql.DatabaseProperties),
      d.Properties = some props →
      (props.ZoneRedundant ≠ some true ∨
        ∃ sku tier, d.SKU = some sku ∧ sku.Tier = some tier) →
      ∃ o, evalRule (SQLScanner.getDatabaseRules ToLower) "sqldb-003" (Target.sqlDatabase (some d)) scanContext = some (Except.ok o)) ∧
    (∀ (d : armsql.Database) (scanContext : Option ScanContext) (sku : armsql.SKU) (name : String),
      d.SKU = some sku → sku.Name = some name →
      ∃ o, evalRule (SQLScanner.getDatabaseRules ToLower) "sqldb-005" (Target.sqlDatabase (some d)) scanContext = some (Except.ok o)) ∧
    (∀ (d : armsql.Database) (scanContext : Option ScanContext) (name : String), d.Name = some name →
      ∃ o, evalRule (SQLScanner.getDatabaseRules ToLower) "sqldb-006" (Target.sqlDatabase (some d)) scanContext = some (Except.ok o)) ∧
    (∀ (d : armsql.Database) (scanContext : Option ScanContext),
      ∃ o, evalRule (SQLScanner.getDatabaseRules ToLower) "sqldb-007" (Target.sqlDatabase (some d)) scanContext = some (Except.ok o)) := by
  refine ⟨?_, ?_, ?_, ?_, ?_, ?_, ?_, ?_, ?_, ?_, ?_, ?_, ?_, ?_, ?_, ?_, ?_⟩
  · intro e ctx id h
    simp [evalRule, ContainerAppsScanner.GetRules, SQLScanner.getServerRules,
      SQLScanner.getDatabaseRules, GoMap.get?, Target.assertServer, Target.assertDatabase,
      Target.assertManagedEnvironment, deref, goAnd, goOr, bind, Except.bind, pure,
      Except.pure, *]
  · intro e sc props z hp hz
    simp [evalRule, ContainerAppsScanner.GetRules, SQLScanner.getServerRules,
      SQLScanner.getDatabaseRules, GoMap.get?, Target.assertServer, Target.assertDatabase,
      Target.assertManagedEnvironment, deref, goAnd, goOr, bind, Except.bind, pure,
      Except.pure, *]
  · intro target sc
    simp [evalRule, ContainerAppsScanner.GetRules, SQLScanner.getServerRules,
      SQLScanner.getDatabaseRules, GoMap.get?, Target.assertServer, Target.assertDatabase,
      Target.assertManagedEnvironment, deref, goAnd, goOr, bind, Except.bind, pure,
      Except.pure, *]
  · intro e sc props hp hv
    rcases hv with hv | ⟨vnet, i, hv, hi⟩
    · simp [evalRule, ContainerAppsScanner.GetRules, SQLScanner.getServerRules,
        SQLScanner.getDatabaseRules, GoMap.get?, Target.assertServer, Target.assertDatabase,
        Target.assertManagedEnvironment, deref, goAnd, goOr, bind, Except.bind, pure,
        Except.pure, *]
    · simp [evalRule, ContainerAppsScanner.GetRules, SQLScanner.getServerRules,
        SQLScanner.getDatabaseRules, GoMap.get?, Target.assertServer, Target.assertDatabase,
        Target.assertManagedEnvironment, deref, goAnd, goOr, bind, Except.bind, pure,
        Except.pure, *]
  · intro e sc name h
    simp [evalRule, ContainerAppsScanner.GetRules, SQLScanner.getServerRules,
      SQLScanner.getDatabaseRules, GoMap.get?, Target.assertServer, Target.assertDatabase,
      Target.assertManagedEnvironment, deref, goAnd, goOr, bind, Except.bind, pure,
      Except.pure, *]
  · intro e sc
    simp [evalRule, ContainerAppsScanner.GetRules, SQLScanner.getServerRules,
      SQLScanner.getDatabaseRules, GoMap.get?, Target.assertServer, Target.assertDatabase,
      Target.assertManagedEnvironment, deref, goAnd, goOr, bind, Except.bind, pure,
      Except.pure, *]
  · intro s ctx id h
    simp [evalRule, ContainerAppsScanner.GetRules, SQLScanner.getServerRules,
      SQLScanner.getDatabaseRules, GoMap.get?, Target.assertServer, Target.assertDatabase,
      Target.assertManagedEnvironment, deref, goAnd, goOr, bind, Except.bind, pure,
      Except.pure, *]
  · intro s sc props hp
    simp [evalRule, ContainerAppsScanner.GetRules, SQLScanner.getServerRules,
      SQLScanner.getDatabaseRules, GoMap.get?, Target.assertServer, Target.assertDatabase,
      Target.assertManagedEnvironment, deref, goAnd, goOr, bind, Except.bind, pure,
      Except.pure, *]
  · intro s sc name h
    simp [evalRule, ContainerAppsScanner.GetRules, SQLScanner.getServerRules,
      SQLScanner.getDatabaseRules, GoMap.get?, Target.assertServer, Target.assertDatabase,
      Target.assertManagedEnvironment, deref, goAnd, goOr, bind, Except.bind, pure,
      Except.pure, *]
  · intro s sc
    simp [evalRule, ContainerAppsScanner.GetRules, SQLScanner.getServerRules,
      SQLScanner.getDatabaseRules, GoMap.get?, Target.assertServer, Target.assertDatabase,
      Target.assertManagedEnvironment, deref, goAnd, goOr, bind, Except.bind, pure,
      Except.pure, *]
  · intro s sc props hp
    obtain ⟨pe, tls⟩ := props
    cases tls <;>
    simp [evalRule, ContainerAppsScanner.GetRules, SQLScanner.getServerRules,
      SQLScanner.getDatabaseRules, GoMap.get?, Target.assertServer, Target.assertDatabase,
      Target.assertManagedEnvironment, deref, goAnd, goOr, bind, Except.bind, pure,
      Except.pure, *]
  · intro d ctx id h
    simp [evalRule, ContainerAppsScanner.GetRules, SQLScanner.getServerRules,
      SQLScanner.getDatabaseRules, GoMap.get?, Target.assertServer, Target.assertDatabase,
      Target.assertManagedEnvironment, deref, goAnd, goOr, bind, Except.bind, pure,
      Except.pure, *]
  · intro d sc props hp
    simp [evalRule, ContainerAppsScanner.GetRules, SQLScanner.getServerRules,
      SQLScanner.getDatabaseRules, GoMap.get?, Target.assertServer, Target.assertDatabase,
      Target.assertManagedEnvironment, deref, goAnd, goOr, bind, Except.bind, pure,
      Except.pure, *]
  · intro d sc props hp hz
    obtain ⟨zr⟩ := props
    rcases hz with hz | ⟨sku, tier, hs, ht⟩
    · rcases zr with _ | _ | _
      · simp [evalRule, ContainerAppsScanner.GetRules, SQLScanner.getServerRules,
          SQLScanner.getDatabaseRules, GoMap.get?, Target.assertServer, Target.assertDatabase,
          Target.assertManagedEnvironment, deref, goAnd, goOr, bind, Except.bind, pure,
          Except.pure, *]
      · simp [evalRule, ContainerAppsScanner.GetRules, SQLScanner.getServerRules,
          SQLScanner.getDatabaseRules, GoMap.get?, Target.assertServer, Target.assertDatabase,
          Target.assertManagedEnvironment, deref, goAnd, goOr, bind, Except.bind, pure,
          Except.pure, *]
      · exact absurd rfl hz
    · rcases zr with _ | _ | _ <;>
      simp [evalRule, ContainerAppsScanner.GetRules, SQLScanner.getServerRules,
        SQLScanner.getDatabaseRules, GoMap.get?, Target.assertServer, Target.assertDatabase,
        Target.assertManagedEnvironment, deref, goAnd, goOr, bind, Except.bind, pure,
        Except.pure, *]
  · intro d sc sku name hs hn
    simp [evalRule, ContainerAppsScanner.GetRules, SQLScanner.getServerRules,
      SQLScanner.getDatabaseRules, GoMap.get?, Target.assertServer, Target.assertDatabase,
      Target.assertManagedEnvironment, deref, goAnd, goOr, bind, Except.bind, pure,
      Except.pure, *]
  · intro d sc name h
    simp [evalRule, ContainerAppsScanner.GetRules, SQLScanner.getServerRules,
      SQLScanner.getDatabaseRules, GoMap.get?, Target.assertServer, Target.assertDatabase,
      Target.assertManagedEnvironment, deref, goAnd, goOr, bind, Except.bind, pure,
      Except.pure, *]
  · intro d sc
    simp [evalRule, ContainerAppsScanner.GetRules, SQLScanner.getServerRules,
      SQLScanner.getDatabaseRules, GoMap.get?, Target.assertServer, Target.assertDatabase,
      Target.assertManagedEnvironment, deref, goAnd, goOr, bind, Except.bind, pure,
      Except.pure, *]

/-- Witness of C11: rules on resources whose other nullable fields are all absent:
cae-001 with only the ID, cae-004 with Properties but no VnetConfiguration, sqldb-003
with Properties but neither ZoneRedundant nor SKU, and sql-008 with Properties but
no MinimalTLSVersion. -/
theorem C11_rules_return_when_read_fields_present_witness :
    (∃ o, evalRule (ContainerAppsScanner.GetRules asciiToLower) "cae-001"
        (Target.managedEnvironment (some ⟨some "X", none, none, none⟩)) (some ⟨none⟩)
        = some (Except.ok o)) ∧
    (∃ o, evalRule (ContainerAppsScanner.GetRules asciiToLower) "cae-004"
        (Target.managedEnvironment (some ⟨none, none, none, some ⟨none, none⟩⟩)) none
        = some (Except.ok o)) ∧
    (∃ o, evalRule (SQLScanner.getDatabaseRules asciiToLower) "sqldb-003"
        (Target.sqlDatabase (some ⟨none, none, none, some ⟨none⟩, none⟩)) none
        = some (Except.ok o)) ∧
    (∃ o, evalRule (SQLScanner.getServerRules asciiToLower) "sql-008"
        (Target.sqlServer (some ⟨none, none, none, some ⟨[], none⟩⟩)) none
        = some (Except.ok o)) :=
  ⟨(C11_rules_return_when_read_fields_present asciiToLower).1
      ⟨some "X", none, none, none⟩ ⟨none⟩ "X" rfl,
   (C11_rules_return_when_read_fields_present asciiToLower).2.2.2.1
      ⟨none, none, none, some ⟨none, none⟩⟩ none ⟨none, none⟩ rfl (Or.inl rfl),
   (C11_rules_return_when_read_fields_present asciiToLower).2.2.2.2.2.2.2.2.2.2.2.2.2.1
      ⟨none, none, none, some ⟨none⟩, none⟩ none ⟨none⟩ rfl (Or.inl (by decide)),
   (C11_rules_return_when_read_fields_present asciiToLower).2.2.2.2.2.2.2.2.2.2.1
      ⟨none, none, none, some ⟨[], none⟩⟩ none ⟨[], none⟩ rfl⟩

/-! ## Wrong-shape targets -/

/-- C12, as stated, fails on cae-003: the rule never inspects its target, so on a SQL
server (or any other value) passed in place of a managed environment it returns the
outcome (false, "99.95%") instead of failing. -/
theorem C12_cae003_wrong_shape_counterexample :
    evalRule (ContainerAppsScanner.GetRules asciiToLower) "cae-003"
      (Target.sqlServer (some ⟨none, none, none, none⟩)) none
      = some (Except.ok (false, "99.95%")) ∧
    evalRule (ContainerAppsScanner.GetRules asciiToLower) "cae-003" Target.other none
      = some (Except.ok (false, "99.95%")) ∧
    ¬ (∀ (target : Target) (scanContext : Option ScanContext) (k : String) (r : AzureRule),
        (k, r) ∈ ContainerAppsScanner.GetRules asciiToLower →
        (∀ p, target ≠ Target.managedEnvironment p) →
        ∀ o, r.Eval target scanContext ≠ Except.ok o) := by
  refine ⟨by decide, by decide, ?_⟩
  intro h
  have hm : ("cae-003", (((ContainerAppsScanner.GetRules asciiToLower).get? "cae-003").get
      (by decide))) ∈ ContainerAppsScanner.GetRules asciiToLower := by
    simp [ContainerAppsScanner.GetRules, GoMap.get?]
  exact h Target.other none "cae-003" _ hm (fun p hp => by cases hp) (false, "99.95%") rfl

/-- C12, amended: every rule of the Container Apps catalog other than cae-003, and
every rule of the SQL server and database sub-catalogs, fails with a type-assertion
fault, and so returns no outcome, on every target whose dynamic type is not the
pointer type the rule expects, whatever the scan context; cae-003 never inspects its
target and returns (false, "99.95%") on every target. -/
theorem C12_wrong_shape_targets_fault (ToLower : String → String) (target : Target)
    (scanContext : Option ScanContext) :
    (∀ (k : String) (r : AzureRule), (k, r) ∈ ContainerAppsScanner.GetRules ToLower →
      k ≠ "cae-003" → (∀ p, target ≠ Target.managedEnvironment p) →
      r.Eval target scanContext = Except.error Panic.typeAssertion ∧
      ∀ o, r.Eval target scanContext ≠ Except.ok o) ∧
    (evalRule (ContainerAppsScanner.GetRules ToLower) "cae-003" target scanContext
      = some (Except.ok (false, "99.95%"))) ∧
    (∀ (k : String) (r : AzureRule), (k, r) ∈ SQLScanner.getServerRules ToLower →
      (∀ p, target ≠ Target.sqlServer p) →
      r.Eval target scanContext = Except.error Panic.typeAssertion ∧
      ∀ o, r.Eval target scanContext ≠ Except.ok o) ∧
    (∀ (k : String) (r : AzureRule), (k, r) ∈ SQLScanner.getDatabaseRules ToLower →
      (∀ p, target ≠ Target.sqlDatabase p) →
      r.Eval target scanContext = Except.error Panic.typeAssertion ∧
      ∀ o, r.Eval target scanContext ≠ Except.ok o) := by
  have key : ∀ x : Except Panic Outcome, x = Except.error Panic.typeAssertion →
      x = Except.error Panic.typeAssertion ∧ ∀ o, x ≠ Except.ok o := by
    intro x hx
    subst hx
    exact ⟨rfl, fun o h => by cases h⟩
  refine ⟨?_, ?_, ?_, ?_⟩
  · intro k r hm hk hw
    apply key
    simp only [ContainerAppsScanner.GetRules, List.mem_cons, Prod.mk.injEq,
      List.mem_singleton, List.not_mem_nil, or_false] at hm
    rcases hm with ⟨rfl, rfl⟩ | ⟨rfl, rfl⟩ | ⟨rfl, rfl⟩ | ⟨rfl, rfl⟩ | ⟨rfl, rfl⟩ | ⟨rfl, rfl⟩
    all_goals first
      | exact absurd rfl hk
      | (cases target <;>
          first
            | rfl
            | exact absurd rfl (hw _))
  · simp [evalRule, ContainerAppsScanner.GetRules, GoMap.get?, pure, Except.pure]
  · intro k r hm hw
    apply key
    simp only [SQLScanner.getServerRules, List.mem_cons, Prod.mk.injEq,
      List.mem_singleton, List.not_mem_nil, or_false] at hm
    rcases hm with ⟨rfl, rfl⟩ | ⟨rfl, rfl⟩ | ⟨rfl, rfl⟩ | ⟨rfl, rfl⟩ | ⟨rfl, rfl⟩
    all_goals
      (cases target <;>
        first
          | rfl
          | exact absurd rfl (hw _))
  · intro k r hm hw
    apply key
    simp only [SQLScanner.getDatabaseRules, List.mem_cons, Prod.mk.injEq,
      List.mem_singleton, List.not_mem_nil, or_false] at hm
    rcases hm with ⟨rfl, rfl⟩ | ⟨rfl, rfl⟩ | ⟨rfl, rfl⟩ | ⟨rfl, rfl⟩ | ⟨rfl, rfl⟩ | ⟨rfl, rfl⟩
    all_goals
      (cases target <;>
        first
          | rfl
          | exact absurd rfl (hw _))

/-- Witness of C12: the server rule sql-001 on a SQL database, and the Container Apps
rule cae-001 on a SQL server. -/
theorem C12_wrong_shape_targets_fault_witness :
    (∃ r, ("sql-001", r) ∈ SQLScanner.getServerRules asciiToLower ∧
      r.Eval (Target.sqlDatabase (some ⟨some "X", none, none, none, none⟩)) none
        = Except.error Panic.typeAssertion ∧
      ∀ o, r.Eval (Target.sqlDatabase (some ⟨some "X", none, none, none, none⟩)) none
        ≠ Except.ok o) ∧
    (∃ r, ("cae-001", r) ∈ ContainerAppsScanner.GetRules asciiToLower ∧
      r.Eval (Target.sqlServer (some ⟨some "X", none, none, none⟩)) none
        = Except.error Panic.typeAssertion ∧
      ∀ o, r.Eval (Target.sqlServer (some ⟨some "X", none, none, none⟩)) none
        ≠ Except.ok o) :=
  ⟨⟨_, List.Mem.head _,
      (C12_wrong_shape_targets_fault asciiToLower
        (Target.sqlDatabase (some ⟨some "X", none, none, none, none⟩)) none).2.2.1
        "sql-001" _ (List.Mem.head _) (fun p hp => by cases hp)⟩,
   ⟨_, List.Mem.head _,
      (C12_wrong_shape_targets_fault asciiToLower
        (Target.sqlServer (some ⟨some "X", none, none, none⟩)) none).1
        "cae-001" _ (List.Mem.head _) (by decide) (fun p hp => by cases hp)⟩⟩

/-! ## Report fields -/

/-- A decidable relation that a Boolean double loop over a catalog finds true holds
between every two entries of the catalog. -/
theorem GoMap.forall2_of_all {α : Type} (m : GoMap α)
    (P : String × α → String × α → Prop) [∀ a b, Decidable (P a b)]
    (h : (m.all fun a => m.all fun b => decide (P a b)) = true) :
    ∀ a, a ∈ m → ∀ b, b ∈ m → P a b := by
  intro a ha b hb
  have h1 := (List.all_eq_true.mp h) a ha
  have h2 := (List.all_eq_true.mp h1) b hb
  exact of_decide_eq_true h2

/-- C13, as stated, fails on the merged SQL catalog: the rules sql-001 and sqldb-001
both carry the report field Diagnostics, and the rules sql-006 and sqldb-006 both
carry the report field CAF. -/
theorem C13_sql_report_field_counterexample :
    (∃ r1 r2, (SQLScanner.GetRules asciiToLower).get? "sql-001" = some r1 ∧
      (SQLScanner.GetRules asciiToLower).get? "sqldb-001" = some r2 ∧
      r1.Id ≠ r2.Id ∧
      r1.Field = some OverviewField.OverviewFieldDiagnostics ∧
      r2.Field = some OverviewField.OverviewFieldDiagnostics) ∧
    (∃ r1 r2, (SQLScanner.GetRules asciiToLower).get? "sql-006" = some r1 ∧
      (SQLScanner.GetRules asciiToLower).get? "sqldb-006" = some r2 ∧
      r1.Id ≠ r2.Id ∧
      r1.Field = some OverviewField.OverviewFieldCAF ∧
      r2.Field = some OverviewField.OverviewFieldCAF) ∧
    ¬ (∀ (k1 : String) (r1 : AzureRule) (k2 : String) (r2 : AzureRule),
        (k1, r1) ∈ SQLScanner.GetRules asciiToLower →
        (k2, r2) ∈ SQLScanner.GetRules asciiToLower →
        r1.Field ≠ none → r1.Field = r2.Field → r1.Id = r2.Id) := by
  refine ⟨⟨_, _, rfl, rfl, by decide, rfl, rfl⟩, ⟨_, _, rfl, rfl, by decide, rfl, rfl⟩, ?_⟩
  intro h
  have h1 : ("sql-001", ((SQLScanner.GetRules asciiToLower).get? "sql-001").get (by decide))
      ∈ SQLScanner.GetRules asciiToLower := by
    simp [SQLScanner.GetRules_eq_append, SQLScanner.getServerRules, GoMap.get?]
  have h2 : ("sqldb-001",
      ((SQLScanner.GetRules asciiToLower).get? "sqldb-001").get (by decide))
      ∈ SQLScanner.GetRules asciiToLower := by
    simp [SQLScanner.GetRules_eq_append, SQLScanner.getDatabaseRules, GoMap.get?]
  exact absurd (h _ _ _ _ h1 h2 (by decide) rfl) (by decide)

/-- C13, amended: in the catalog of `ContainerAppsScanner.GetRules` and in each of the
two SQL sub-catalogs `getServerRules` and `getDatabaseRules`, no two distinct rules
carry the same non-empty report field.  In the merged `SQLScanner.GetRules` two
distinct rules carry the same non-empty report field only when the field is
Diagnostics or CAF and one of the rules is a server rule and the other a database
rule. -/
theorem C13_report_field_unique_per_resource_type (ToLower : String → String) :
    (∀ (k1 : String) (r1 : AzureRule) (k2 : String) (r2 : AzureRule),
      (k1, r1) ∈ ContainerAppsScanner.GetRules ToLower →
      (k2, r2) ∈ ContainerAppsScanner.GetRules ToLower →
      r1.Field ≠ none → r1.Field = r2.Field → r1.Id = r2.Id) ∧
    (∀ (k1 : String) (r1 : AzureRule) (k2 : String) (r2 : AzureRule),
      (k1, r1) ∈ SQLScanner.getServerRules ToLower →
      (k2, r2) ∈ SQLScanner.getServerRules ToLower →
      r1.Field ≠ none → r1.Field = r2.Field → r1.Id = r2.Id) ∧
    (∀ (k1 : String) (r1 : AzureRule) (k2 : String) (r2 : AzureRule),
      (k1, r1) ∈ SQLScanner.getDatabaseRules ToLower →
      (k2, r2) ∈ SQLScanner.getDatabaseRules ToLower →
      r1.Field ≠ none → r1.Field = r2.Field → r1.Id = r2.Id) ∧
    (∀ (k1 : String) (r1 : AzureRule) (k2 : String) (r2 : AzureRule),
      (k1, r1) ∈ SQLScanner.GetRules ToLower →
      (k2, r2) ∈ SQLScanner.GetRules ToLower →
      r1.Field ≠ none → r1.Field = r2.Field → r1.Id ≠ r2.Id →
      (r1.Field = some OverviewField.OverviewFieldDiagnostics ∨
        r1.Field = some OverviewField.OverviewFieldCAF) ∧
      ((k1 ∈ (SQLScanner.getServerRules ToLower).keys ∧
          k2 ∈ (SQLScanner.getDatabaseRules ToLower).keys) ∨
       (k1 ∈ (SQLScanner.getDatabaseRules ToLower).keys ∧
          k2 ∈ (SQLScanner.getServerRules ToLower).keys))) := by
  have hsk : (SQLScanner.getServerRules ToLower).keys
      = ["sql-001", "sql-004", "sql-006", "sql-007", "sql-008"] := by rfl
  have hdk : (SQLScanner.getDatabaseRules ToLower).keys
      = ["sqldb-001", "sqldb-002", "sqldb-003", "sqldb-005", "sqldb-006", "sqldb-007"] := by
    rfl
  refine ⟨?_, ?_, ?_, ?_⟩
  · intro k1 r1 k2 r2 h1 h2
    exact GoMap.forall2_of_all (ContainerAppsScanner.GetRules ToLower)
      (fun a b => a.2.Field ≠ none → a.2.Field = b.2.Field → a.2.Id = b.2.Id)
      (by rfl) (k1, r1) h1 (k2, r2) h2
  · intro k1 r1 k2 r2 h1 h2
    exact GoMap.forall2_of_all (SQLScanner.getServerRules ToLower)
      (fun a b => a.2.Field ≠ none → a.2.Field = b.2.Field → a.2.Id = b.2.Id)
      (by rfl) (k1, r1) h1 (k2, r2) h2
  · intro k1 r1 k2 r2 h1 h2
    exact GoMap.forall2_of_all (SQLScanner.getDatabaseRules ToLower)
      (fun a b => a.2.Field ≠ none → a.2.Field = b.2.Field → a.2.Id = b.2.Id)
      (by rfl) (k1, r1) h1 (k2, r2) h2
  · intro k1 r1 k2 r2 h1 h2
    rw [hsk, hdk]
    exact GoMap.forall2_of_all (SQLScanner.GetRules ToLower)
      (fun a b => a.2.Field ≠ none → a.2.Field = b.2.Field → a.2.Id ≠ b.2.Id →
        (a.2.Field = some OverviewField.OverviewFieldDiagnostics ∨
          a.2.Field = some OverviewField.OverviewFieldCAF) ∧
        ((a.1 ∈ ["sql-001", "sql-004", "sql-006", "sql-007", "sql-008"] ∧
            b.1 ∈ ["sqldb-001", "sqldb-002", "sqldb-003", "sqldb-005", "sqldb-006",
              "sqldb-007"]) ∨
         (a.1 ∈ ["sqldb-001", "sqldb-002", "sqldb-003", "sqldb-005", "sqldb-006",
              "sqldb-007"] ∧
            b.1 ∈ ["sql-001", "sql-004", "sql-006", "sql-007", "sql-008"])))
      (by rfl) (k1, r1) h1 (k2, r2) h2

/-- Witness of C13: sql-001 and sqldb-001 of the merged catalog share the field
Diagnostics, one being a server rule and the other a database rule; within the
server catalog sql-001 is the only rule with the field Diagnostics. -/
theorem C13_report_field_unique_per_resource_type_witness :
    (∃ r1 r2, ("sql-001", r1) ∈ SQLScanner.GetRules asciiToLower ∧
      ("sqldb-001", r2) ∈ SQLScanner.GetRules asciiToLower ∧
      ((r1.Field = some OverviewField.OverviewFieldDiagnostics ∨
          r1.Field = some OverviewField.OverviewFieldCAF) ∧
        (("sql-001" ∈ (SQLScanner.getServerRules asciiToLower).keys ∧
            "sqldb-001" ∈ (SQLScanner.getDatabaseRules asciiToLower).keys) ∨
         ("sql-001" ∈ (SQLScanner.getDatabaseRules asciiToLower).keys ∧
            "sqldb-001" ∈ (SQLScanner.getServerRules asciiToLower).keys)))) ∧
    (∀ (k : String) (r : AzureRule), (k, r) ∈ SQLScanner.getServerRules asciiToLower →
      r.Field = some OverviewField.OverviewFieldDiagnostics → r.Id = "sql-001") :=
  have h1 : ("sql-001", ((SQLScanner.GetRules asciiToLower).get? "sql-001").get (by decide))
      ∈ SQLScanner.GetRules asciiToLower := by
    simp [SQLScanner.GetRules_eq_append, SQLScanner.getServerRules, GoMap.get?]
  have h2 : ("sqldb-001",
      ((SQLScanner.GetRules asciiToLower).get? "sqldb-001").get (by decide))
      ∈ SQLScanner.GetRules asciiToLower := by
    simp [SQLScanner.GetRules_eq_append, SQLScanner.getDatabaseRules, GoMap.get?]
  ⟨⟨_, _, h1, h2,
      (C13_report_field_unique_per_resource_type asciiToLower).2.2.2 _ _ _ _ h1 h2
        (by decide) rfl (by decide)⟩,
   fun k r hm hf =>
      ((C13_report_field_unique_per_resource_type asciiToLower).2.1 "sql-001" _ k r
        (List.Mem.head _) hm (by decide) hf.symm).symm⟩

/-! ## Rule independence -/

/-- C14: for every scan context and every two managed environments with the same ID,
Name and Properties, the first with at least one tag and the second with none (a nil
or empty Tags map), rule cae-007 is not broken for the first and broken for the
second, and every other rule of the Container Apps catalog (cae-001, cae-002,
cae-003, cae-004, cae-006) gives the same result on both, a fault included. -/
theorem C14_cae_rule_independence (ToLower : String → String)
    (e1 e2 : armappcontainers.ManagedEnvironment) (scanContext : Option ScanContext)
    (hid : e1.ID = e2.ID) (hname : e1.Name = e2.Name)
    (hprops : e1.Properties = e2.Properties)
    (h1 : ∃ m, e1.Tags = some m ∧ m ≠ [])
    (h2 : e2.Tags = none ∨ e2.Tags = some []) :
    evalRule (ContainerAppsScanner.GetRules ToLower) "cae-007"
      (Target.managedEnvironment (some e1)) scanContext = some (Except.ok (false, "")) ∧
    evalRule (ContainerAppsScanner.GetRules ToLower) "cae-007"
      (Target.managedEnvironment (some e2)) scanContext = some (Except.ok (true, "")) ∧
    (∀ (k : String) (r : AzureRule), (k, r) ∈ ContainerAppsScanner.GetRules ToLower →
      k ≠ "cae-007" →
      r.Eval (Target.managedEnvironment (some e1)) scanContext
        = r.Eval (Target.managedEnvironment (some e2)) scanContext) ∧
    (ContainerAppsScanner.GetRules ToLower).keys
      = ["cae-001", "cae-002", "cae-003", "cae-004", "cae-006", "cae-007"] := by
  obtain ⟨id1, name1, tags1, props1⟩ := e1
  obtain ⟨id2, name2, tags2, props2⟩ := e2
  simp only at hid hname hprops h1 h2
  subst hid hname hprops
  obtain ⟨m, hm, hne⟩ := h1
  subst hm
  refine ⟨?_, ?_, ?_, rfl⟩
  · cases m with
    | nil => exact absurd rfl hne
    | cons a m =>
      simp [evalRule, ContainerAppsScanner.GetRules, GoMap.get?,
        Target.assertManagedEnvironment, deref, lenIsZero, bind, Except.bind, pure,
        Except.pure]
  · rcases h2 with rfl | rfl <;>
      simp [evalRule, ContainerAppsScanner.GetRules, GoMap.get?,
        Target.assertManagedEnvironment, deref, lenIsZero, bind, Except.bind, pure,
        Except.pure]
  · intro k r hmem hk
    simp only [ContainerAppsScanner.GetRules, List.mem_cons, Prod.mk.injEq,
      List.mem_singleton, List.not_mem_nil, or_false] at hmem
    rcases hmem with ⟨rfl, rfl⟩ | ⟨rfl, rfl⟩ | ⟨rfl, rfl⟩ | ⟨rfl, rfl⟩ | ⟨rfl, rfl⟩ |
      ⟨rfl, rfl⟩
    all_goals first
      | exact absurd rfl hk
      | rfl

/-- Witness of C14: two managed environments that differ only in their Tags. -/
theorem C14_cae_rule_independence_witness :
    evalRule (ContainerAppsScanner.GetRules asciiToLower) "cae-007"
      (Target.managedEnvironment
        (some ⟨some "X", some "cae-a", some [("env", some "prod")], some ⟨some true, none⟩⟩))
      (some ⟨some [("x", true)]⟩) = some (Except.ok (false, "")) ∧
    evalRule (ContainerAppsScanner.GetRules asciiToLower) "cae-007"
      (Target.managedEnvironment
        (some ⟨some "X", some "cae-a", none, some ⟨some true, none⟩⟩))
      (some ⟨some [("x", true)]⟩) = some (Except.ok (true, "")) ∧
    (∀ (k : String) (r : AzureRule),
      (k, r) ∈ ContainerAppsScanner.GetRules asciiToLower → k ≠ "cae-007" →
      r.Eval (Target.managedEnvironment
          (some ⟨some "X", some "cae-a", some [("env", some "prod")],
            some ⟨some true, none⟩⟩))
        (some ⟨some [("x", true)]⟩)
        = r.Eval (Target.managedEnvironment
          (some ⟨some "X", some "cae-a", none, some ⟨some true, none⟩⟩))
        (some ⟨some [("x", true)]⟩)) ∧
    (ContainerAppsScanner.GetRules asciiToLower).keys
      = ["cae-001", "cae-002", "cae-003", "cae-004", "cae-006", "cae-007"] :=
  C14_cae_rule_independence asciiToLower
    ⟨some "X", some "cae-a", some [("env", some "prod")], some ⟨some true, none⟩⟩
    ⟨some "X", some "cae-a", none, some ⟨some true, none⟩⟩
    (some ⟨some [("x", true)]⟩) rfl rfl rfl
    ⟨[("env", some "prod")], rfl, by decide⟩ (Or.inl rfl)

end Azqr
